import Mathlib

/-
Verification of the subplot-grid construction module (plotly/subplots.py).

The Python module is shallowly embedded below: every numeric value is a
rational number (the source uses floats only for geometry arithmetic),
Python dictionaries used as records become Lean structures, the mutable
layout object and the max_subplot_ids counter dictionary become explicit
association lists threaded through the computation, and every `raise`
becomes `Except.error` with the corresponding message.  Python list
indexing (including negative indices) is modelled by `pyGet`.
-/

deriving instance DecidableEq for Except

namespace Plotly

/-- Python-style list indexing: a negative index counts from the end of the
list; an index outside the valid range raises IndexError. -/
def pyGet {α : Type} (l : List α) (i : Int) : Except String α :=
  if 0 ≤ i then
    match l.get? i.toNat with
    | some v => .ok v
    | none => .error "IndexError"
  else if 0 ≤ i + l.length then
    match l.get? (i + l.length).toNat with
    | some v => .ok v
    | none => .error "IndexError"
  else .error "IndexError"

/-- Sequencing in the Except monad, written out so that proofs can reason
about it by cases. -/
def ebind {α β : Type} (e : Except String α) (f : α → Except String β) :
    Except String β :=
  match e with
  | .error msg => .error msg
  | .ok v => f v

/-- Two-dimensional Python-style indexing l[i][j]. -/
def pyGet2 {α : Type} (l : List (List α)) (i j : Int) : Except String α :=
  ebind (pyGet l i) fun row => pyGet row j

/-- First-match lookup in an association list (a Python dict read d[k]). -/
def assocGet {α : Type} (l : List (String × α)) (k : String) : Option α :=
  match l with
  | [] => none
  | (k', v) :: rest => if k' = k then some v else assocGet rest k

/-- Update-or-append in an association list (a Python dict write d[k] = v). -/
def assocSet {α : Type} (l : List (String × α)) (k : String) (v : α) :
    List (String × α) :=
  match l with
  | [] => [(k, v)]
  | (k', v') :: rest =>
    if k' = k then (k, v) :: rest else (k', v') :: assocSet rest k v

/-- Sum of the first n entries of a list of rationals (Python sum(l[:n])). -/
def sumTake (l : List ℚ) (n : Nat) : ℚ := (l.take n).sum

/-- Write position (r, c) of a 2D list, leaving the list unchanged when the
row index is out of range (the source never hits that case). -/
def set2d {α : Type} (l : List (List α)) (r c : Nat) (v : α) : List (List α) :=
  match l.get? r with
  | none => l
  | some row => l.set r (row.set c v)

/-- A value stored in a trace_kwargs dictionary: either a label string such
as x2 or polar3, or (for domain-type subplots) a domain record. -/
inductive TraceVal where
  | s (v : String)
  | dom (x y : ℚ × ℚ)
deriving DecidableEq, Repr

/-- A fully-populated per-cell spec dictionary (after defaults are filled). -/
structure CellSpec where
  type : String
  colspan : Int
  rowspan : Int
  l : ℚ
  r : ℚ
  b : ℚ
  t : ℚ
deriving DecidableEq, Repr

/-- A grid-reference element: the dict built by the _init_subplot helpers,
plus the spec key that make_subplots attaches for grid cells. -/
structure SubplotRef where
  subplot_type : String
  layout_keys : List String
  trace_kwargs : List (String × TraceVal)
  spec : Option CellSpec := none
deriving DecidableEq, Repr

/-- An entry registered on the figure layout: either a cartesian axis
container (with domain, anchor, and the attributes the shared-axis pass
mutates) or a single-container subplot entry holding a domain record. -/
inductive LayoutEntry where
  | axis (domain : ℚ × ℚ) (anchor : String) (matches_ : Option String)
      (showticklabels : Option Bool)
  | single (x y : ℚ × ℚ)
deriving DecidableEq, Repr

/-- The figure layout, as the association of names (xaxis2, scene1, ...) to
registered containers. -/
abbrev Layout := List (String × LayoutEntry)

/-- The max_subplot_ids counter dictionary. -/
abbrev MaxIds := List (String × Nat)

/-- The grid reference table: rows x cols of optional reference records. -/
abbrev GridRef := List (List (Option SubplotRef))

/-- The module-level set _subplot_types. -/
def subplot_types : List String := ["scene", "geo", "polar", "ternary", "mapbox"]

/-- The module-level set _subplot_prop_named_subplot. -/
def subplot_prop_named_subplot : List String := ["polar", "ternary", "mapbox"]

/-- _get_initial_max_subplot_ids: every counter starts at 0. -/
def get_initial_max_subplot_ids : MaxIds :=
  subplot_types.map (fun t => (t, 0)) ++ [("xaxis", 0), ("yaxis", 0)]

/-- Counter read max_subplot_ids[k]. -/
def idsGet (m : MaxIds) (k : String) : Nat := (assocGet m k).getD 0

/-- _init_subplot_xy: allocate the next xaxis/yaxis pair, register both on
the layout anchored to each other, and return the reference record. -/
def init_subplot_xy (layout : Layout) (x_domain y_domain : ℚ × ℚ)
    (m : MaxIds) : Layout × SubplotRef × MaxIds :=
  let x_cnt := idsGet m "xaxis" + 1
  let y_cnt := idsGet m "yaxis" + 1
  let x_label := "x" ++ toString x_cnt
  let y_label := "y" ++ toString y_cnt
  let x_anchor := y_label
  let y_anchor := x_label
  let xaxis_name := "xaxis" ++ toString x_cnt
  let yaxis_name := "yaxis" ++ toString y_cnt
  let layout1 := assocSet layout xaxis_name (.axis x_domain x_anchor none none)
  let layout2 := assocSet layout1 yaxis_name (.axis y_domain y_anchor none none)
  let ref : SubplotRef :=
    { subplot_type := "xy",
      layout_keys := [xaxis_name, yaxis_name],
      trace_kwargs := [("xaxis", .s x_label), ("yaxis", .s y_label)] }
  (layout2, ref, assocSet (assocSet m "xaxis" x_cnt) "yaxis" y_cnt)

/-- _init_subplot_single: allocate the next index for the given kind and
register one layout entry.  NOTE: the source increments the counter with
the literal statement max_subplot_ids['scene'] = cnt, writing the scene
counter whatever subplot_type was allocated; this is embedded faithfully. -/
def init_subplot_single (layout : Layout) (subplot_type : String)
    (x_domain y_domain : ℚ × ℚ) (m : MaxIds) : Layout × SubplotRef × MaxIds :=
  let cnt := idsGet m subplot_type + 1
  let label := subplot_type ++ toString cnt
  let layout1 := assocSet layout label (.single x_domain y_domain)
  let trace_key :=
    if subplot_prop_named_subplot.contains subplot_type then "subplot"
    else subplot_type
  let ref : SubplotRef :=
    { subplot_type := subplot_type,
      layout_keys := [label],
      trace_kwargs := [(trace_key, .s label)] }
  (layout1, ref, assocSet m "scene" cnt)

/-- _init_subplot_domain: no layout entry; the domain goes in trace_kwargs. -/
def init_subplot_domain (x_domain y_domain : ℚ × ℚ) : SubplotRef :=
  { subplot_type := "domain",
    layout_keys := [],
    trace_kwargs := [("domain", .dom x_domain y_domain)] }

/-- _init_subplot: clamp the domain endpoints (lower bounded below by 0,
upper bounded above by 1) and dispatch on the subplot type. -/
def init_subplot (layout : Layout) (subplot_type : String)
    (x_domain y_domain : ℚ × ℚ) (m : MaxIds) :
    Except String (Layout × SubplotRef × MaxIds) :=
  let xd : ℚ × ℚ := (max 0 x_domain.1, min 1 x_domain.2)
  let yd : ℚ × ℚ := (max 0 y_domain.1, min 1 y_domain.2)
  if subplot_type = "xy" then
    .ok (init_subplot_xy layout xd yd m)
  else if subplot_types.contains subplot_type then
    .ok (init_subplot_single layout subplot_type xd yd m)
  else if subplot_type = "domain" then
    .ok (layout, init_subplot_domain xd yd, m)
  else
    .error ("Invalid subplot type " ++ subplot_type)

/-- A width/height value of an inset spec: a fraction of the host cell, or
the to_end sentinel meaning extend to the far cell edge. -/
inductive WVal where
  | to_end
  | frac (v : ℚ)
deriving DecidableEq, Repr

/-- A raw per-cell spec dictionary as supplied by the caller: each
recognized key may be present or absent, the legacy is_3d key carries its
truthiness, and extra lists any unrecognized keys found in the dict. -/
structure CellSpecIn where
  type : Option String := none
  colspan : Option Int := none
  rowspan : Option Int := none
  l : Option ℚ := none
  r : Option ℚ := none
  b : Option ℚ := none
  t : Option ℚ := none
  is_3d : Option Bool := none
  extra : List String := []
deriving DecidableEq, Repr

/-- A raw inset spec dictionary as supplied by the caller. -/
structure InsetSpecIn where
  cell : Option (Int × Int) := none
  type : Option String := none
  l : Option ℚ := none
  w : Option WVal := none
  b : Option ℚ := none
  h : Option WVal := none
  is_3d : Option Bool := none
  extra : List String := []
deriving DecidableEq, Repr

/-- A fully-populated inset spec. -/
structure InsetSpec where
  cell : Int × Int
  type : String
  l : ℚ
  w : WVal
  b : ℚ
  h : WVal
deriving DecidableEq, Repr

/-- The backward-compatibility pass on one spec dict: pop the is_3d key and,
when its value was truthy, write type = scene into the dict. -/
def translate_is3d (s : CellSpecIn) : CellSpecIn :=
  match s.is_3d with
  | some true => { s with is_3d := none, type := some "scene" }
  | some false => { s with is_3d := none }
  | none => s

/-- The backward-compatibility pass on one inset dict. -/
def inset_translate_is3d (s : InsetSpecIn) : InsetSpecIn :=
  match s.is_3d with
  | some true => { s with is_3d := none, type := some "scene" }
  | some false => { s with is_3d := none }
  | none => s

/-- _check_keys_and_fill on one spec dict: reject unrecognized keys, then
insert every absent default key into the dict (Python setdefault). -/
def check_keys_and_fill_spec (s : CellSpecIn) : Except String CellSpecIn :=
  if s.extra ≠ [] then
    .error "Invalid key specified in an element of the specs argument to make_subplots"
  else
    .ok { type := some (s.type.getD "xy"),
          colspan := some (s.colspan.getD 1),
          rowspan := some (s.rowspan.getD 1),
          l := some (s.l.getD 0),
          r := some (s.r.getD 0),
          b := some (s.b.getD 0),
          t := some (s.t.getD 0),
          is_3d := s.is_3d,
          extra := s.extra }

/-- _check_keys_and_fill on one inset dict. -/
def check_keys_and_fill_inset (s : InsetSpecIn) : Except String InsetSpecIn :=
  if s.extra ≠ [] then
    .error "Invalid key specified in an element of the insets argument to make_subplots"
  else
    .ok { cell := some (s.cell.getD (1, 1)),
          type := some (s.type.getD "xy"),
          l := some (s.l.getD 0),
          w := some (s.w.getD .to_end),
          b := some (s.b.getD 0),
          h := some (s.h.getD .to_end),
          is_3d := s.is_3d,
          extra := s.extra }

/-- What make_subplots does in place to each caller-supplied spec dict:
the is_3d translation followed by key validation and default filling. -/
def spec_normalize (s : CellSpecIn) : Except String CellSpecIn :=
  check_keys_and_fill_spec (translate_is3d s)

/-- What make_subplots does in place to each caller-supplied inset dict. -/
def inset_normalize (s : InsetSpecIn) : Except String InsetSpecIn :=
  check_keys_and_fill_inset (inset_translate_is3d s)

/-- Read a normalized spec dict into a plain record (all keys present). -/
def toCellSpec (s : CellSpecIn) : CellSpec :=
  { type := s.type.getD "xy",
    colspan := s.colspan.getD 1,
    rowspan := s.rowspan.getD 1,
    l := s.l.getD 0,
    r := s.r.getD 0,
    b := s.b.getD 0,
    t := s.t.getD 0 }

/-- Read a normalized inset dict into a plain record. -/
def toInsetSpec (s : InsetSpecIn) : InsetSpec :=
  { cell := s.cell.getD (1, 1),
    type := s.type.getD "xy",
    l := s.l.getD 0,
    w := s.w.getD .to_end,
    b := s.b.getD 0,
    h := s.h.getD .to_end }

/-- The Python value passed for shared_xaxes / shared_yaxes: None, a bool,
or a string. -/
inductive SharedVal where
  | noneV
  | boolV (b : Bool)
  | strV (s : String)
deriving DecidableEq, Repr

/-- The valid_shared_vals list of the source. -/
def valid_shared_vals : List SharedVal :=
  [.noneV, .boolV true, .boolV false, .strV "rows", .strV "cols", .strV "all"]

/-- The arguments of make_subplots that the embedded core consumes.  The
x_title / y_title / print_grid arguments only affect annotations and
printed output, which are not modelled.  A row_width legacy keyword call is
expressed by use_legacy_row_heights_order. -/
structure MakeSubplotsArgs where
  rows : Int := 1
  cols : Int := 1
  shared_xaxes : SharedVal := .boolV false
  shared_yaxes : SharedVal := .boolV false
  start_cell : String := "top-left"
  horizontal_spacing : Option ℚ := none
  vertical_spacing : Option ℚ := none
  subplot_titles : List String := []
  column_widths : Option (List ℚ) := none
  row_heights : Option (List ℚ) := none
  specs : Option (List (List (Option CellSpecIn))) := none
  insets : Option (List InsetSpecIn) := none
  column_titles : List String := []
  row_titles : List String := []
  use_legacy_row_heights_order : Bool := false
deriving DecidableEq, Repr

/-- The inputs of the grid-building stage, produced by the validation and
normalization stage. -/
structure Prepared where
  R : Nat
  C : Nat
  row_dir : Int
  hs : ℚ
  vs : ℚ
  max_width : ℚ
  widths : List ℚ
  heights : List ℚ
  specs : List (List (Option CellSpec))
  insets : List InsetSpec
  shared_x : SharedVal
  shared_y : SharedVal
deriving DecidableEq, Repr

/-- Monadic map over a list in the Except monad. -/
def list_mapE {α β : Type} (f : α → Except String β) :
    List α → Except String (List β)
  | [] => .ok []
  | x :: xs =>
    ebind (f x) fun y =>
    ebind (list_mapE f xs) fun ys =>
    .ok (y :: ys)

/-- Monadic map over an optional value in the Except monad. -/
def opt_mapE {α β : Type} (f : α → Except String β) :
    Option α → Except String (Option β)
  | none => .ok none
  | some x => (f x).map some

/-- The column_widths block: equal widths by default, else scale the
supplied relative weights; reject a length mismatch. -/
def compute_widths (C : Nat) (max_width hs : ℚ) :
    Option (List ℚ) → Except String (List ℚ)
  | none => .ok (List.replicate C ((max_width - hs * ((C : ℚ) - 1)) / (C : ℚ)))
  | some cw =>
    if cw.length = C then
      .ok (cw.map (fun w => (max_width - hs * ((C : ℚ) - 1)) * (w / cw.sum)))
    else
      .error "The column_widths argument to make_subplots must be a list of numbers of length cols"

/-- The row_heights block, including the reversal applied for top-left
start cells when the legacy row_width keyword was not used. -/
def compute_heights (R : Nat) (vs : ℚ) (row_dir : Int) (legacy : Bool) :
    Option (List ℚ) → Except String (List ℚ)
  | none => .ok (List.replicate R ((1 - vs * ((R : ℚ) - 1)) / (R : ℚ)))
  | some rh =>
    if rh.length = R then
      let hs0 := rh.map (fun h => (1 - vs * ((R : ℚ) - 1)) * (h / rh.sum))
      .ok (if row_dir < 0 ∧ legacy = false then hs0.reverse else hs0)
    else
      .error "The row_heights argument to make_subplots must be a list of numbers of length rows"

/-- The specs block, part one: default grid of empty dicts or the shape
validation of a supplied grid. -/
def specs_default_or_check (R C : Nat) :
    Option (List (List (Option CellSpecIn))) →
    Except String (List (List (Option CellSpecIn)))
  | none => .ok (List.replicate R (List.replicate C (some ({} : CellSpecIn))))
  | some s =>
    if s.length = R ∧ ∀ row ∈ s, row.length = C then .ok s
    else .error "The specs argument to make_subplots must be a 2D list of dictionaries with dimensions rows x cols"

/-- The filling and read-out applied after the shape check. -/
def normalize_specs (R C : Nat)
    (specs : Option (List (List (Option CellSpecIn)))) :
    Except String (List (List (Option CellSpec))) :=
  ebind (specs_default_or_check R C specs) fun raw =>
  ebind (list_mapE (list_mapE (opt_mapE spec_normalize)) raw) fun filled =>
  .ok (filled.map (fun row => row.map (fun c => c.map toCellSpec)))

/-- The insets block: missing means the empty list; each dict is translated
and filled like a spec dict. -/
def normalize_insets (insets : Option (List InsetSpecIn)) :
    Except String (List InsetSpec) :=
  let raw := match insets with
    | none => []
    | some l => l
  ebind (list_mapE inset_normalize raw) fun filled =>
  .ok (filled.map toInsetSpec)

/-- The validation and normalization prefix of make_subplots, everything
before the layout object is created, in source order. -/
def validate_and_normalize (a : MakeSubplotsArgs) : Except String Prepared :=
  if a.rows ≤ 0 then
    .error "The rows argument to make_subplots must be an int greater than 0"
  else if a.cols ≤ 0 then
    .error "The cols argument to make_subplots must be an int greater than 0"
  else
  let R := a.rows.toNat
  let C := a.cols.toNat
  ebind (if a.start_cell = "bottom-left" then .ok (1 : Int)
    else if a.start_cell = "top-left" then .ok (-1 : Int)
    else .error "The start_cell argument to make_subplots must be one of bottom-left, top-left") fun row_dir =>
  let hs := a.horizontal_spacing.getD ((0.2 : ℚ) / (C : ℚ))
  let vs := a.vertical_spacing.getD
    (if a.subplot_titles ≠ [] then (0.5 : ℚ) / (R : ℚ) else (0.3 : ℚ) / (R : ℚ))
  let max_width : ℚ := if a.row_titles ≠ [] then 0.98 else 1
  ebind (compute_widths C max_width hs a.column_widths) fun widths =>
  ebind (compute_heights R vs row_dir a.use_legacy_row_heights_order a.row_heights) fun heights =>
  ebind (normalize_specs R C a.specs) fun specs =>
  ebind (normalize_insets a.insets) fun insets =>
  if valid_shared_vals.contains a.shared_xaxes = false then
    .error "The shared_xaxes argument to make_subplots must be one of None, True, False, rows, cols, all"
  else if valid_shared_vals.contains a.shared_yaxes = false then
    .error "The shared_yaxes argument to make_subplots must be one of None, True, False, rows, cols, all"
  else
    .ok { R := R, C := C, row_dir := row_dir, hs := hs, vs := vs,
          max_width := max_width, widths := widths, heights := heights,
          specs := specs, insets := insets,
          shared_x := a.shared_xaxes, shared_y := a.shared_yaxes }

/-- The message raised when a colspan exceeds the grid. -/
def colspan_too_large_msg : String :=
  "Some colspan value is too large for this subplot grid"

/-- The message raised when a rowspan exceeds the grid. -/
def rowspan_too_large_msg : String :=
  "Some rowspan value is too large for this subplot grid"

/-- Whether an error message is one of the two span-out-of-range errors. -/
def is_span_error (e : String) : Prop :=
  e = colspan_too_large_msg ∨ e = rowspan_too_large_msg

/-- The resulting figure: the populated layout plus the grid reference
table attached to it for later lookup and trace binding. -/
structure Figure where
  layout : Layout
  grid_ref : GridRef
deriving DecidableEq, Repr

/-- The mutable state threaded through the per-cell loop of make_subplots. -/
structure BuildState where
  layout : Layout
  grid_ref : GridRef
  max_ids : MaxIds
deriving DecidableEq, Repr

/-- The row-major list of (row index, column index, spec) cells that the
per-cell loop of make_subplots traverses. -/
def cellsOf (specs : List (List (Option CellSpec))) :
    List (Nat × Nat × Option CellSpec) :=
  specs.enum.flatMap (fun rr => rr.2.enum.map (fun cc => (rr.1, cc.1, cc.2)))

/-- The body of the per-cell loop for one non-None spec: span checks, the
domain computation from the anchor grid, and the subplot allocation. -/
def process_cell (p : Prepared) (grid : List (List (ℚ × ℚ))) (r c : Nat)
    (spec : CellSpec) (st : BuildState) : Except String BuildState :=
  if (c : Int) + spec.colspan - 1 ≥ (p.C : Int) then .error colspan_too_large_msg
  else if (r : Int) + spec.rowspan - 1 ≥ (p.R : Int) then .error rowspan_too_large_msg
  else
  let c_spanned : Int := (c : Int) + spec.colspan - 1
  let r_spanned : Int := (r : Int) + spec.rowspan - 1
  ebind (pyGet2 grid (r : Int) (c : Int)) fun g_rc =>
  let x_s := g_rc.1 + spec.l
  ebind (pyGet2 grid (r : Int) c_spanned) fun g_rcs =>
  ebind (pyGet p.widths c_spanned) fun w_cs =>
  let x_e := g_rcs.1 + w_cs - spec.r
  ebind (if p.row_dir > 0 then
      ebind (pyGet2 grid r_spanned (c : Int)) fun g_rs =>
      ebind (pyGet p.heights r_spanned) fun h_rs =>
      .ok (g_rc.2 + spec.b, g_rs.2 + h_rs - spec.t)
    else
      ebind (pyGet2 grid r_spanned (c : Int)) fun g_rs =>
      ebind (pyGet p.heights (-1 - (r : Int))) fun h_last =>
      .ok (g_rs.2 + spec.b, g_rc.2 + h_last - spec.t)) fun yd =>
  ebind (init_subplot st.layout spec.type (x_s, x_e) yd st.max_ids) fun t =>
  .ok { layout := t.1,
        grid_ref := set2d st.grid_ref r c (some { t.2.1 with spec := some spec }),
        max_ids := t.2.2 }

/-- The per-cell loop of make_subplots: None cells are skipped. -/
def process_cells (p : Prepared) (grid : List (List (ℚ × ℚ))) :
    List (Nat × Nat × Option CellSpec) → BuildState → Except String BuildState
  | [], st => .ok st
  | (_, _, none) :: rest, st => process_cells p grid rest st
  | (r, c, some spec) :: rest, st =>
    ebind (process_cell p grid r c spec st) fun st2 =>
    process_cells p grid rest st2

/-- ['x', 'y'].index(x_or_y): which layout key of an xy pair is relevant. -/
def axis_ind (x_or_y : String) : Nat := if x_or_y = "x" then 0 else 1

/-- The span a reference record exposes to the shared-axis pass: colspan
when sharing x, rowspan when sharing y (grid cells always carry a spec). -/
def ref_span (x_or_y : String) (ref : SubplotRef) : Int :=
  match ref.spec with
  | some s => if x_or_y = "x" then s.colspan else s.rowspan
  | none => 1

/-- Mutate layout[name]: set matches and, when requested, hide the tick
labels.  Only axis containers carry these attributes. -/
def set_axis_matches (layout : Layout) (name : String) (fid : String)
    (remove_label : Bool) : Layout :=
  match assocGet layout name with
  | some (.axis d a _ s) =>
    assocSet layout name (.axis d a (some fid) (if remove_label then some false else s))
  | _ => layout

/-- update_axis_matches of the source: skip None cells and ineligible
records; the first eligible record becomes the canonical axis id, every
later eligible record has its axis set to match it. -/
def update_axis_matches (x_or_y : String) (remove_label : Bool)
    (st : Layout × Option String) (ref : Option SubplotRef) :
    Layout × Option String :=
  match ref with
  | none => st
  | some ref =>
    if ref.subplot_type = "xy" ∧ ref_span x_or_y ref = 1 then
      match st.2 with
      | none =>
        (st.1, some ((ref.layout_keys.getD (axis_ind x_or_y) "").replace "axis" ""))
      | some fid =>
        (set_axis_matches st.1 (ref.layout_keys.getD (axis_ind x_or_y) "") fid remove_label,
         some fid)
    else st

/-- Read grid_ref[r][c] (always in range in the source). -/
def grid_ref_at (gr : GridRef) (r c : Nat) : Option SubplotRef :=
  (gr.getD r []).getD c none

/-- One sequence of cells visited with a single running first-axis id. -/
def shared_pass_cells (x_or_y : String) (remove_label : Bool) (gr : GridRef) :
    List (Nat × Nat) → Layout × Option String → Layout × Option String
  | [], st => st
  | (r, c) :: rest, st =>
    shared_pass_cells x_or_y remove_label gr rest
      (update_axis_matches x_or_y remove_label st (grid_ref_at gr r c))

/-- The columns sharing mode: one pass per column, first-axis id reset per
column, visiting rows in traversal order. -/
def shared_columns_mode (x_or_y : String) (remove_label : Bool) (gr : GridRef)
    (rows_iter : List Nat) : List Nat → Layout → Layout
  | [], lay => lay
  | c :: cs, lay =>
    let st := shared_pass_cells x_or_y remove_label gr
      (rows_iter.map (fun r => (r, c))) (lay, none)
    shared_columns_mode x_or_y remove_label gr rows_iter cs st.1

/-- The rows sharing mode: one pass per row in traversal order, first-axis
id reset per row, visiting columns left to right. -/
def shared_rows_mode (x_or_y : String) (remove_label : Bool) (gr : GridRef)
    (C : Nat) : List Nat → Layout → Layout
  | [], lay => lay
  | r :: rs, lay =>
    let st := shared_pass_cells x_or_y remove_label gr
      ((List.range C).map (fun c => (r, c))) (lay, none)
    shared_rows_mode x_or_y remove_label gr C rs st.1

/-- The all sharing mode: a single first-axis id across the whole grid,
with the label-hiding rule depending on the axis and the traversal order.
Each visited cell is given as (column, position within rows_iter, row). -/
def shared_all_mode (x_or_y : String) (row_dir : Int) (R : Nat) (gr : GridRef) :
    List (Nat × Nat × Nat) → Layout × Option String → Layout × Option String
  | [], st => st
  | (c, ri, r) :: rest, st =>
    let remove_label :=
      if x_or_y = "y" then (if c > 0 then true else false)
      else if row_dir > 0 then (if ri > 0 then true else false)
      else (if r < R - 1 then true else false)
    shared_all_mode x_or_y row_dir R gr rest
      (update_axis_matches x_or_y remove_label st (grid_ref_at gr r c))

/-- _configure_shared_axes: dispatch on the requested sharing mode; any
other value (False, None, or the validation-accepted cols string) is a
no-op. -/
def configure_shared_axes (layout : Layout) (gr : GridRef) (x_or_y : String)
    (shared : SharedVal) (row_dir : Int) : Layout :=
  let rows := gr.length
  let cols := (gr.headD []).length
  let rows_iter := if row_dir < 0 then (List.range rows).reverse else List.range rows
  if shared = .strV "columns" ∨ (x_or_y = "x" ∧ shared = .boolV true) then
    shared_columns_mode x_or_y (if x_or_y = "x" then true else false) gr
      rows_iter (List.range cols) layout
  else if shared = .strV "rows" ∨ (x_or_y = "y" ∧ shared = .boolV true) then
    shared_rows_mode x_or_y (if x_or_y = "y" then true else false) gr
      cols rows_iter layout
  else if shared = .strV "all" then
    (shared_all_mode x_or_y row_dir rows gr
      ((List.range cols).flatMap (fun c => rows_iter.enum.map (fun rr => (c, rr.1, rr.2))))
      (layout, none)).1
  else layout

/-- The inset loop of make_subplots: range-check the host cell, compute the
inset domain from the host cell anchor, and allocate the subplot. -/
def process_insets (p : Prepared) (grid : List (List (ℚ × ℚ))) :
    List InsetSpec → Layout → MaxIds → Except String (Layout × MaxIds)
  | [], lay, m => .ok (lay, m)
  | inset :: rest, lay, m =>
    if ¬ (0 ≤ inset.cell.1 - 1 ∧ inset.cell.1 - 1 < (p.R : Int)) then
      .error "Some cell row value is out of range. Note: the starting cell is (1, 1)"
    else if ¬ (0 ≤ inset.cell.2 - 1 ∧ inset.cell.2 - 1 < (p.C : Int)) then
      .error "Some cell col value is out of range. Note: the starting cell is (1, 1)"
    else
    ebind (pyGet2 grid (inset.cell.1 - 1) (inset.cell.2 - 1)) fun g_rc =>
    ebind (pyGet p.widths (inset.cell.2 - 1)) fun w_c =>
    let x_s := g_rc.1 + inset.l * w_c
    let x_e := match inset.w with
      | .to_end => g_rc.1 + w_c
      | .frac wv => x_s + wv * w_c
    ebind (pyGet p.heights (-1 - (inset.cell.1 - 1))) fun h_r =>
    let y_s := g_rc.2 + inset.b * h_r
    let y_e := match inset.h with
      | .to_end => g_rc.2 + h_r
      | .frac hv => y_s + hv * h_r
    ebind (init_subplot lay inset.type (x_s, x_e) (y_s, y_e) m) fun t =>
    process_insets p grid rest t.1 t.2.2

/-- The 2D list of per-cell anchor coordinates (the grid comprehension of
the source, whose row order follows row_dir). -/
def build_grid (p : Prepared) : List (List (ℚ × ℚ)) :=
  (if p.row_dir < 0 then (List.range p.R).reverse else List.range p.R).map
    (fun r => (List.range p.C).map (fun c =>
      (sumTake p.widths c + (c : ℚ) * p.hs, sumTake p.heights r + (r : ℚ) * p.vs)))

/-- The state the per-cell loop starts from: an empty layout, an empty
reference table of the right dimensions, and zeroed counters. -/
def init_build_state (p : Prepared) : BuildState :=
  { layout := [],
    grid_ref := List.replicate p.R (List.replicate p.C none),
    max_ids := get_initial_max_subplot_ids }

/-- The layout after both shared-axis passes. -/
def shared_axes_layouts (p : Prepared) (st : BuildState) : Layout :=
  configure_shared_axes
    (configure_shared_axes st.layout st.grid_ref "x" p.shared_x p.row_dir)
    st.grid_ref "y" p.shared_y p.row_dir

/-- The grid-building suffix of make_subplots continued: the anchor grid,
the per-cell loop, the two shared-axis passes, and the inset loop. -/
def build_figure (p : Prepared) : Except String Figure :=
  ebind (process_cells p (build_grid p) (cellsOf p.specs) (init_build_state p)) fun st =>
  ebind (process_insets p (build_grid p) p.insets (shared_axes_layouts p st) st.max_ids) fun lm =>
  .ok { layout := lm.1, grid_ref := st.grid_ref }

/-- make_subplots: validate and normalize the inputs, then build the layout
and the grid reference table. -/
def make_subplots (a : MakeSubplotsArgs) : Except String Figure :=
  ebind (validate_and_normalize a) build_figure

/-- The layout a caller can observe in the call result: the layout of the
returned figure, or nothing at all when the call raised. -/
def result_layout : Except String Figure → Layout
  | .ok f => f.layout
  | .error _ => []

/-- A typed subplot handle as returned by lookup: a domain record, a single
layout container, or an xaxis/yaxis pair of containers. -/
inductive SubplotHandle where
  | dom (x y : ℚ × ℚ)
  | single (entry : LayoutEntry)
  | xy (xaxis yaxis : LayoutEntry)
deriving DecidableEq, Repr

/-- Read layout[k], raising KeyError when the name is not registered. -/
def layout_get (lay : Layout) (k : String) : Except String LayoutEntry :=
  match assocGet lay k with
  | some e => .ok e
  | none => .error "KeyError"

/-- _get_grid_subplot: validate the 1-based position against the grid
dimensions, return None for an empty cell, and otherwise the handle shaped
by the arity of the layout_keys of the cell. -/
def get_grid_subplot (fig : Figure) (row col : Int) :
    Except String (Option SubplotHandle) :=
  let rows := fig.grid_ref.length
  ebind (pyGet fig.grid_ref 0) fun row0 =>
  let cols := row0.length
  if row < 1 ∨ (rows : Int) < row then
    .error "The row argument to get_subplot must be an integer where 1 <= row <= rows"
  else if col < 1 ∨ (cols : Int) < col then
    .error "The col argument to get_subplot must be an integer where 1 <= col <= cols"
  else
  ebind (pyGet fig.grid_ref (row - 1)) fun refRow =>
  ebind (pyGet refRow (col - 1)) fun ref? =>
  match ref? with
  | none => .ok none
  | some ref =>
    match ref.layout_keys with
    | [] =>
      match assocGet ref.trace_kwargs "domain" with
      | some (.dom x y) => .ok (some (.dom x y))
      | _ => .error "KeyError"
    | [k] =>
      ebind (layout_get fig.layout k) fun e =>
      .ok (some (.single e))
    | [k1, k2] =>
      ebind (layout_get fig.layout k1) fun e1 =>
      ebind (layout_get fig.layout k2) fun e2 =>
      .ok (some (.xy e1 e2))
    | _ => .error "Unexpected subplot type with layout_keys"

/-- A trace object as the binding operation sees it: its type name, the set
of property names it supports, and its current property values. -/
structure Trace where
  type : String
  supported : List String
  props : List (String × TraceVal)
deriving DecidableEq, Repr

/-- trace.update(kwargs): write every binding property onto the trace. -/
def trace_update (t : Trace) (kwargs : List (String × TraceVal)) : Trace :=
  { t with props := kwargs.foldl (fun ps kv => assocSet ps kv.1 kv.2) t.props }

/-- _set_trace_grid_reference: reject non-positive and out-of-range
positions and empty cells, check that the trace supports every binding key
before any mutation, then apply all binding properties onto the trace. -/
def set_trace_grid_reference (t : Trace) (gr : GridRef) (row col : Int) :
    Except String Trace :=
  if row ≤ 0 then
    .error "Row value is out of range. Note: the starting cell is (1, 1)"
  else if col ≤ 0 then
    .error "Col value is out of range. Note: the starting cell is (1, 1)"
  else
  ebind (match pyGet2 gr (row - 1) (col - 1) with
    | .ok v => .ok v
    | .error _ => .error "The (row, col) pair sent is out of range. Use Figure.print_grid to view the subplot grid.") fun ref? =>
  match ref? with
  | none => .error "No subplot specified at grid position"
  | some ref =>
    if ∀ kv ∈ ref.trace_kwargs, t.supported.contains kv.1 = true then
      .ok (trace_update t ref.trace_kwargs)
    else
      .error "Trace type is not compatible with subplot type at this grid position"

/-- The vertical spacing selected by validation (0 when validation fails). -/
def prep_vs (a : MakeSubplotsArgs) : ℚ :=
  match validate_and_normalize a with
  | .ok p => p.vs
  | .error _ => 0

/-- The normalized spec grid selected by validation. -/
def prep_specs (a : MakeSubplotsArgs) : List (List (Option CellSpec)) :=
  match validate_and_normalize a with
  | .ok p => p.specs
  | .error _ => []

/-- The row count selected by validation. -/
def prep_R (a : MakeSubplotsArgs) : Nat :=
  match validate_and_normalize a with
  | .ok p => p.R
  | .error _ => 0

/-- The column count selected by validation. -/
def prep_C (a : MakeSubplotsArgs) : Nat :=
  match validate_and_normalize a with
  | .ok p => p.C
  | .error _ => 0

/-- The normalized inset list selected by validation. -/
def prep_insets (a : MakeSubplotsArgs) : List InsetSpec :=
  match validate_and_normalize a with
  | .ok p => p.insets
  | .error _ => []

/-- Whether a subplot type string is one the factory recognizes. -/
def valid_subplot_type (t : String) : Prop :=
  t = "xy" ∨ t ∈ subplot_types ∨ t = "domain"

/-- A 1 x 1 grid whose only cell spans two columns (the C7 witness input). -/
def c7_args : MakeSubplotsArgs :=
  { rows := 1, cols := 1, specs := some [[some { colspan := some 2 }]] }

/-- The clamp guarantee the factory establishes for a registered container:
the lower endpoint of each interval is at least 0 and the upper endpoint is
at most 1. -/
def entry_clamped : LayoutEntry → Prop
  | .axis d _ _ _ => 0 ≤ d.1 ∧ d.2 ≤ 1
  | .single x y => 0 ≤ x.1 ∧ x.2 ≤ 1 ∧ 0 ≤ y.1 ∧ y.2 ≤ 1

/-- The shape correspondence between the layout keys and the trace binding
keys of a reference record: a domain record carries the domain in its
trace_kwargs, a single-container record binds through the label that names
its one layout entry, and an xy record binds xN/yM matching its
xaxisN/yaxisM layout entries. -/
def ref_wf (ref : SubplotRef) : Prop :=
  (ref.layout_keys = [] ∧ ∃ x y, ref.trace_kwargs = [("domain", TraceVal.dom x y)])
  ∨ (∃ k tk, ref.layout_keys = [k] ∧ ref.trace_kwargs = [(tk, TraceVal.s k)])
  ∨ (∃ n m, ref.layout_keys = ["xaxis" ++ n, "yaxis" ++ m]
      ∧ ref.trace_kwargs = [("xaxis", TraceVal.s ("x" ++ n)),
                            ("yaxis", TraceVal.s ("y" ++ m))])

/-- Every layout key of the record is registered on the layout. -/
def keys_present (lay : Layout) (ref : SubplotRef) : Prop :=
  ∀ k ∈ ref.layout_keys, (assocGet lay k).isSome = true

/-- Every record in the table is well-shaped and fully registered. -/
def grid_wf (lay : Layout) (gr : GridRef) : Prop :=
  ∀ r c ref, grid_ref_at gr r c = some ref → ref_wf ref ∧ keys_present lay ref

/-- What the lookup result must be for a populated cell: shaped by the
arity of layout_keys, built from exactly the registered layout containers,
with identifiers matching the trace_kwargs stored in the cell. -/
def handle_matches (lay : Layout) (ref : SubplotRef)
    (res : Except String (Option SubplotHandle)) : Prop :=
  (ref.layout_keys = [] →
    ∃ x y, ref.trace_kwargs = [("domain", TraceVal.dom x y)]
      ∧ res = .ok (some (.dom x y)))
  ∧ (∀ k, ref.layout_keys = [k] →
      ∃ tk e, ref.trace_kwargs = [(tk, TraceVal.s k)]
        ∧ assocGet lay k = some e ∧ res = .ok (some (.single e)))
  ∧ (∀ k1 k2, ref.layout_keys = [k1, k2] →
      ∃ n m e1 e2, k1 = "xaxis" ++ n ∧ k2 = "yaxis" ++ m
        ∧ ref.trace_kwargs = [("xaxis", TraceVal.s ("x" ++ n)),
                              ("yaxis", TraceVal.s ("y" ++ m))]
        ∧ assocGet lay k1 = some e1 ∧ assocGet lay k2 = some e2
        ∧ res = .ok (some (.xy e1 e2)))

/-- The conditions on one traversed cell under which the per-cell loop can
only fail through its span checks: a recognized subplot type and positive
spans. -/
def cell_types_ok (x : Nat × Nat × Option CellSpec) : Prop :=
  match x.2.2 with
  | some spec =>
    valid_subplot_type spec.type ∧ 1 ≤ spec.colspan ∧ 1 ≤ spec.rowspan
  | none => True

/-- Whether a traversed cell carries a span that exceeds the grid bounds. -/
def cell_is_bad_span (R C : Nat) (x : Nat × Nat × Option CellSpec) : Prop :=
  match x.2.2 with
  | some spec =>
    (x.2.1 : Int) + spec.colspan - 1 ≥ (C : Int)
      ∨ (x.1 : Int) + spec.rowspan - 1 ≥ (R : Int)
  | none => False

instance (t : String) : Decidable (valid_subplot_type t) :=
  inferInstanceAs (Decidable (_ ∨ _))

instance (e : String) : Decidable (is_span_error e) :=
  inferInstanceAs (Decidable (_ ∨ _))

instance (x : Nat × Nat × Option CellSpec) : Decidable (cell_types_ok x) :=
  match x with
  | (_, _, none) => isTrue trivial
  | (_, _, some _) => inferInstanceAs (Decidable (_ ∧ _))

instance (R C : Nat) (x : Nat × Nat × Option CellSpec) :
    Decidable (cell_is_bad_span R C x) :=
  match x with
  | (_, _, none) => isFalse (fun h => h)
  | (_, _, some _) => inferInstanceAs (Decidable (_ ∨ _))

/-- A 1 x 2 grid of two polar cells (the C1 failing input). -/
def c1_args : MakeSubplotsArgs :=
  { rows := 1, cols := 2,
    specs := some [[some { type := some "polar" },
                    some { type := some "polar" }]] }

/-- A 2 x 1 grid asking for shared x-axes with the columns string. -/
def c2_columns_args : MakeSubplotsArgs :=
  { rows := 2, shared_xaxes := SharedVal.strV "columns" }

/-- A 2 x 1 grid asking for shared x-axes with the cols string. -/
def c2_cols_args : MakeSubplotsArgs :=
  { rows := 2, shared_xaxes := SharedVal.strV "cols" }

/-- A 2 x 1 grid asking for shared x-axes with True. -/
def c2_true_args : MakeSubplotsArgs :=
  { rows := 2, shared_xaxes := SharedVal.boolV true }

/-- The C6 scenario input: rows=2, cols=1, everything else defaulted. -/
def c6_args : MakeSubplotsArgs := { rows := 2, cols := 1 }

/-- Every container registered on a layout is clamped. -/
def layout_clamped (lay : Layout) : Prop :=
  ∀ kv ∈ lay, entry_clamped kv.2

/-- A 1 x 1 grid whose only cell carries left padding 5 (the C5
counterexample input). -/
def c5_args : MakeSubplotsArgs :=
  { rows := 1, cols := 1, specs := some [[some { l := some 5 }]] }

/-- The figure that make_subplots returns for c5_args. -/
def c5_fig : Figure :=
  { layout := [("xaxis1", .axis (5, 1) "y1" none none),
               ("yaxis1", .axis (0, 1) "x1" none none)],
    grid_ref := [[some { subplot_type := "xy",
                         layout_keys := ["xaxis1", "yaxis1"],
                         trace_kwargs := [("xaxis", .s "x1"), ("yaxis", .s "y1")],
                         spec := some { type := "xy", colspan := 1, rowspan := 1,
                                        l := 5, r := 0, b := 0, t := 0 } }]] }

/-- Whether a reference record would let the shared-axis pass touch the
layout entry called name during an x_or_y pass: it must be an xy record
whose span along the sharing direction (colspan for x, rowspan for y)
equals 1, and name must be its relevant layout key. -/
def linker_eligible (x_or_y : String) (name : String) (ref : SubplotRef) : Prop :=
  ref.subplot_type = "xy" ∧ ref_span x_or_y ref = 1
    ∧ ref.layout_keys.getD (axis_ind x_or_y) "" = name

/-- A 3 x 1 grid with shared x-axes where the visually-top cell spans two
rows (the C4 counterexample input). -/
def c4_args : MakeSubplotsArgs :=
  { rows := 3, cols := 1, shared_xaxes := SharedVal.boolV true,
    specs := some [[some { rowspan := some 2 }], [none], [some {}]] }

/-- A one-entry layout for the C4 witness. -/
def c4w_layout : Layout := [("xaxis1", .axis (0, 1) "y1" none none)]

/-- A single xy record spanning two columns, for the C4 witness. -/
def c4w_ref : SubplotRef :=
  { subplot_type := "xy", layout_keys := ["xaxis1", "yaxis1"],
    trace_kwargs := [("xaxis", .s "x1"), ("yaxis", .s "y1")],
    spec := some { type := "xy", colspan := 2, rowspan := 1,
                   l := 0, r := 0, b := 0, t := 0 } }

/-- The 1 x 1 grid reference table holding c4w_ref. -/
def c4w_grid_ref : GridRef := [[some c4w_ref]]

/-- A 1 x 2 grid whose first cell is fine and whose second cell carries an
out-of-range rowspan (the C3 witness input): the first cell is processed,
allocating axes on the call-local layout, before the second cell raises. -/
def c3_args : MakeSubplotsArgs :=
  { rows := 1, cols := 2, specs := some [[some {}, some { rowspan := some 2 }]] }

/-- A pie-like trace supporting only the domain property (Scenario E). -/
def c9_trace : Trace := { type := "pie", supported := ["domain"], props := [] }

/-- An xy reference record for the C9 witness grid. -/
def c9_xyref : SubplotRef :=
  { subplot_type := "xy", layout_keys := ["xaxis1", "yaxis1"],
    trace_kwargs := [("xaxis", .s "x1"), ("yaxis", .s "y1")],
    spec := some { type := "xy", colspan := 1, rowspan := 1,
                   l := 0, r := 0, b := 0, t := 0 } }

/-- A 1 x 2 reference table with an xy cell and an empty cell. -/
def c9_grid_ref : GridRef := [[some c9_xyref, none]]

/-- A spec dict carrying a truthy legacy is_3d key, an explicit type and a
left padding (the C10 witness input). -/
def c10_spec_dict : CellSpecIn :=
  { type := some "xy", is_3d := some true, l := some (1/4) }

/-- An inset dict carrying only a truthy legacy is_3d key. -/
def c10_inset_dict : InsetSpecIn := { is_3d := some true }

/-- Key-presence monotonicity between two layouts: every name registered
on the first stays registered on the second. -/
def layKeysMono (lay lay2 : Layout) : Prop :=
  ∀ k, (assocGet lay k).isSome = true → (assocGet lay2 k).isSome = true

/-- Input for the C8 witness: the default 1 x 1 grid. -/
def c8_args : MakeSubplotsArgs := { rows := 1, cols := 1 }

/-- The reference record of the only cell of the c8_args figure. -/
def c8_ref : SubplotRef :=
  { subplot_type := "xy", layout_keys := ["xaxis1", "yaxis1"],
    trace_kwargs := [("xaxis", .s "x1"), ("yaxis", .s "y1")],
    spec := some { type := "xy", colspan := 1, rowspan := 1,
                   l := 0, r := 0, b := 0, t := 0 } }

/-- The figure make_subplots returns for c8_args. -/
def c8_fig : Figure :=
  { layout := [("xaxis1", .axis (0, 1) "y1" none none),
               ("yaxis1", .axis (0, 1) "x1" none none)],
    grid_ref := [[some c8_ref]] }

/-!  Theorems.  The claim theorems and their supporting lemmas follow; all
definitions above are the embedding of the source module. -/

/-- C1: the specification states that each per-kind allocation counter is
incremented exactly once per created subplot of that kind, so that two
subplots of the same single-container kind get distinct identifiers
(polar1, polar2).  The code disagrees: _init_subplot_single always writes
the scene counter, so a grid with two polar cells allocates the identifier
polar1 twice — both reference records carry polar1 and the layout holds a
single polar1 entry (the second allocation overwrote the first). -/
theorem claim_C1_code_eval :
    (make_subplots c1_args).map
      (fun f => (f.grid_ref.map (List.map (Option.map SubplotRef.layout_keys)),
                 f.layout.map Prod.fst))
    = .ok ([[some ["polar1"], some ["polar1"]]], ["polar1"]) := by
  with_unfolding_all decide

/-- C2: the specification states that the accepted values for shared_xaxes
are None, True, False, rows, columns, all, with columns selecting the
share-within-each-column mode.  The code validates against the list
containing cols instead of columns: passing columns raises, while the
validation-accepted cols matches no branch of _configure_shared_axes and
configures nothing (no matches assignment anywhere), although True does
configure column sharing. -/
theorem claim_C2_code_eval :
    (make_subplots c2_columns_args
      = .error "The shared_xaxes argument to make_subplots must be one of None, True, False, rows, cols, all")
    ∧ ((make_subplots c2_cols_args).map (fun f => f.layout)
      = .ok [("xaxis1", .axis (0, 1) "y1" none none),
             ("yaxis1", .axis (23/40, 1) "x1" none none),
             ("xaxis2", .axis (0, 1) "y2" none none),
             ("yaxis2", .axis (0, 17/40) "x2" none none)])
    ∧ ((make_subplots c2_true_args).map (fun f => assocGet f.layout "xaxis1")
      = .ok (some (.axis (0, 1) "y1" (some "x2") (some false)))) := by
  refine ⟨by with_unfolding_all decide, by with_unfolding_all decide,
    by with_unfolding_all decide⟩

/-- C6: make_subplots with rows=2, cols=1 and defaults creates exactly two
xy subplots bound as x1/y1 (input row 1, the visually top row) and x2/y2;
the default vertical spacing is 0.3/2 = 3/20, row 1 receives the y-domain
[23/40, 1] = [0.575, 1] and row 2 the y-domain [0, 17/40] = [0, 0.425]. -/
theorem claim_C6 :
    prep_vs c6_args = (0.3 : ℚ) / 2
    ∧ (make_subplots c6_args).map
        (fun f => f.grid_ref.map (List.map (Option.map SubplotRef.trace_kwargs)))
      = .ok [[some [("xaxis", .s "x1"), ("yaxis", .s "y1")]],
             [some [("xaxis", .s "x2"), ("yaxis", .s "y2")]]]
    ∧ (make_subplots c6_args).map (fun f => f.layout)
      = .ok [("xaxis1", .axis (0, 1) "y1" none none),
             ("yaxis1", .axis (23/40, 1) "x1" none none),
             ("xaxis2", .axis (0, 1) "y2" none none),
             ("yaxis2", .axis (0, 17/40) "x2" none none)] := by
  refine ⟨by with_unfolding_all decide, by with_unfolding_all decide,
    by with_unfolding_all decide⟩

theorem mem_assocSet {α : Type} {k : String} {v : α}
    (l : List (String × α)) (x : String × α)
    (hx : x ∈ assocSet l k v) : x = (k, v) ∨ x ∈ l := by
  induction l with
  | nil =>
    simp only [assocSet, List.mem_singleton] at hx
    exact Or.inl hx
  | cons hd tl ih =>
    obtain ⟨k', v'⟩ := hd
    simp only [assocSet] at hx
    by_cases h : k' = k
    · rw [if_pos h] at hx
      rcases List.mem_cons.1 hx with h1 | h1
      · exact Or.inl h1
      · exact Or.inr (List.mem_cons_of_mem _ h1)
    · rw [if_neg h] at hx
      rcases List.mem_cons.1 hx with h1 | h1
      · exact Or.inr (h1 ▸ List.mem_cons_self _ _)
      · rcases ih h1 with h2 | h2
        · exact Or.inl h2
        · exact Or.inr (List.mem_cons_of_mem _ h2)

theorem assocGet_mem {α : Type} (l : List (String × α)) (k : String) (v : α)
    (h : assocGet l k = some v) : (k, v) ∈ l := by
  induction l with
  | nil => simp [assocGet] at h
  | cons hd tl ih =>
    obtain ⟨k', v'⟩ := hd
    simp only [assocGet] at h
    by_cases hk : k' = k
    · rw [if_pos hk] at h
      cases h
      subst hk
      exact List.mem_cons_self _ _
    · rw [if_neg hk] at h
      exact List.mem_cons_of_mem _ (ih h)

theorem layout_clamped_assocSet {lay : Layout} {k : String} {e : LayoutEntry}
    (hl : layout_clamped lay) (he : entry_clamped e) :
    layout_clamped (assocSet lay k e) := by
  intro kv hkv
  rcases mem_assocSet lay kv hkv with h | h
  · rw [h]
    exact he
  · exact hl kv h

theorem entry_clamped_axis_clamp (a b : ℚ) (anc : String) (mm : Option String)
    (s : Option Bool) : entry_clamped (.axis (max 0 a, min 1 b) anc mm s) :=
  ⟨le_max_left 0 a, min_le_left 1 b⟩

theorem entry_clamped_single_clamp (a b c d : ℚ) :
    entry_clamped (.single (max 0 a, min 1 b) (max 0 c, min 1 d)) :=
  ⟨le_max_left 0 a, min_le_left 1 b, le_max_left 0 c, min_le_left 1 d⟩

theorem init_subplot_clamped {lay lay' : Layout} {t : String} {xd yd : ℚ × ℚ}
    {m m' : MaxIds} {ref : SubplotRef}
    (h : init_subplot lay t xd yd m = .ok (lay', ref, m'))
    (hl : layout_clamped lay) : layout_clamped lay' := by
  unfold init_subplot at h
  split_ifs at h with h1 h2 h3
  · injection h with h'
    have hfst : (init_subplot_xy lay (max 0 xd.1, min 1 xd.2)
        (max 0 yd.1, min 1 yd.2) m).1 = lay' := congrArg Prod.fst h'
    rw [← hfst]
    unfold init_subplot_xy
    exact layout_clamped_assocSet
      (layout_clamped_assocSet hl (entry_clamped_axis_clamp _ _ _ _ _))
      (entry_clamped_axis_clamp _ _ _ _ _)
  · injection h with h'
    have hfst : (init_subplot_single lay t (max 0 xd.1, min 1 xd.2)
        (max 0 yd.1, min 1 yd.2) m).1 = lay' := congrArg Prod.fst h'
    rw [← hfst]
    unfold init_subplot_single
    exact layout_clamped_assocSet hl (entry_clamped_single_clamp _ _ _ _)
  · injection h with h'
    have hfst : lay = lay' := congrArg Prod.fst h'
    rw [← hfst]
    exact hl

theorem set_axis_matches_clamped {lay : Layout} {n f : String} {b : Bool}
    (hl : layout_clamped lay) : layout_clamped (set_axis_matches lay n f b) := by
  unfold set_axis_matches
  cases hg : assocGet lay n with
  | none => exact hl
  | some e =>
    cases e with
    | axis d a mm s =>
      exact layout_clamped_assocSet hl (hl (n, .axis d a mm s) (assocGet_mem _ _ _ hg))
    | single x y => exact hl

theorem update_axis_matches_clamped {x_or_y : String} {rl : Bool}
    {st : Layout × Option String} {ref : Option SubplotRef}
    (hl : layout_clamped st.1) :
    layout_clamped (update_axis_matches x_or_y rl st ref).1 := by
  cases ref with
  | none => exact hl
  | some r =>
    simp only [update_axis_matches]
    split_ifs with h
    · cases hst : st.2 with
      | none => simp only [hst]; exact hl
      | some fid => simp only [hst]; exact set_axis_matches_clamped hl
    · exact hl

theorem shared_pass_cells_clamped (x_or_y : String) (rl : Bool) (gr : GridRef)
    (cells : List (Nat × Nat)) :
    ∀ st : Layout × Option String, layout_clamped st.1 →
      layout_clamped (shared_pass_cells x_or_y rl gr cells st).1 := by
  induction cells with
  | nil =>
    intro st h
    rw [shared_pass_cells]
    exact h
  | cons hd rest ih =>
    obtain ⟨r, c⟩ := hd
    intro st h
    rw [shared_pass_cells]
    exact ih _ (update_axis_matches_clamped h)

theorem shared_columns_mode_clamped (x_or_y : String) (rl : Bool) (gr : GridRef)
    (rows_iter : List Nat) (cs : List Nat) :
    ∀ lay : Layout, layout_clamped lay →
      layout_clamped (shared_columns_mode x_or_y rl gr rows_iter cs lay) := by
  induction cs with
  | nil =>
    intro lay h
    rw [shared_columns_mode]
    exact h
  | cons c rest ih =>
    intro lay h
    rw [shared_columns_mode]
    exact ih _ (shared_pass_cells_clamped _ _ _ _ _ h)

theorem shared_rows_mode_clamped (x_or_y : String) (rl : Bool) (gr : GridRef)
    (C : Nat) (rs : List Nat) :
    ∀ lay : Layout, layout_clamped lay →
      layout_clamped (shared_rows_mode x_or_y rl gr C rs lay) := by
  induction rs with
  | nil =>
    intro lay h
    rw [shared_rows_mode]
    exact h
  | cons r rest ih =>
    intro lay h
    rw [shared_rows_mode]
    exact ih _ (shared_pass_cells_clamped _ _ _ _ _ h)

theorem shared_all_mode_clamped (x_or_y : String) (row_dir : Int) (R : Nat)
    (gr : GridRef) (cells : List (Nat × Nat × Nat)) :
    ∀ st : Layout × Option String, layout_clamped st.1 →
      layout_clamped (shared_all_mode x_or_y row_dir R gr cells st).1 := by
  induction cells with
  | nil =>
    intro st h
    rw [shared_all_mode]
    exact h
  | cons hd rest ih =>
    obtain ⟨c, ri, r⟩ := hd
    intro st h
    rw [shared_all_mode]
    exact ih _ (update_axis_matches_clamped h)

theorem configure_shared_axes_clamped {lay : Layout} (gr : GridRef)
    (x_or_y : String) (shared : SharedVal) (row_dir : Int)
    (hl : layout_clamped lay) :
    layout_clamped (configure_shared_axes lay gr x_or_y shared row_dir) := by
  unfold configure_shared_axes
  split_ifs <;>
    first
    | exact shared_columns_mode_clamped _ _ _ _ _ _ hl
    | exact shared_rows_mode_clamped _ _ _ _ _ _ hl
    | exact shared_all_mode_clamped _ _ _ _ _ _ hl
    | exact hl

theorem ebind_ok {α β : Type} {e : Except String α}
    {f : α → Except String β} {b : β}
    (h : ebind e f = .ok b) : ∃ a, e = .ok a ∧ f a = .ok b := by
  cases e with
  | ok a => exact ⟨a, rfl, h⟩
  | error msg => exact Except.noConfusion h

theorem process_cell_layout {p : Prepared} {grid : List (List (ℚ × ℚ))}
    {r c : Nat} {spec : CellSpec} {st st2 : BuildState}
    (h : process_cell p grid r c spec st = .ok st2) :
    ∃ xd yd ref0 m2,
      init_subplot st.layout spec.type xd yd st.max_ids = .ok (st2.layout, ref0, m2) := by
  unfold process_cell at h
  split_ifs at h
  all_goals
    obtain ⟨g_rc, h1, h⟩ := ebind_ok h
    obtain ⟨g_rcs, h2, h⟩ := ebind_ok h
    obtain ⟨w_cs, h3, h⟩ := ebind_ok h
    obtain ⟨yd, h4, h⟩ := ebind_ok h
    obtain ⟨t, h5, h⟩ := ebind_ok h
    injection h with h'
    subst h'
    exact ⟨_, _, t.2.1, t.2.2, h5⟩

theorem process_cells_clamped {p : Prepared} {grid : List (List (ℚ × ℚ))} :
    ∀ (cells : List (Nat × Nat × Option CellSpec)) (st st2 : BuildState),
      process_cells p grid cells st = .ok st2 →
      layout_clamped st.layout → layout_clamped st2.layout := by
  intro cells
  induction cells with
  | nil =>
    intro st st2 h hl
    rw [process_cells] at h
    cases h
    exact hl
  | cons hd rest ih =>
    obtain ⟨r, c, sp⟩ := hd
    intro st st2 h hl
    cases sp with
    | none =>
      rw [process_cells] at h
      exact ih _ _ h hl
    | some spec =>
      rw [process_cells] at h
      obtain ⟨st1, h1, h2⟩ := ebind_ok h
      obtain ⟨xd, yd, ref0, m2, hi⟩ := process_cell_layout h1
      exact ih _ _ h2 (init_subplot_clamped hi hl)

theorem process_insets_clamped {p : Prepared} {grid : List (List (ℚ × ℚ))} :
    ∀ (insets : List InsetSpec) (lay : Layout) (m : MaxIds)
      (lay2 : Layout) (m2 : MaxIds),
      process_insets p grid insets lay m = .ok (lay2, m2) →
      layout_clamped lay → layout_clamped lay2 := by
  intro insets
  induction insets with
  | nil =>
    intro lay m lay2 m2 h hl
    rw [process_insets] at h
    cases h
    exact hl
  | cons hd rest ih =>
    intro lay m lay2 m2 h hl
    rw [process_insets] at h
    split_ifs at h
    obtain ⟨g_rc, h1, h⟩ := ebind_ok h
    obtain ⟨w_c, h2, h⟩ := ebind_ok h
    obtain ⟨h_r, h3, h⟩ := ebind_ok h
    obtain ⟨t, h4, h⟩ := ebind_ok h
    exact ih _ _ _ _ h (init_subplot_clamped h4 hl)

/-- C5 (amended): for every figure make_subplots returns, every container
registered on the layout has clamped domain intervals in the one-sided
sense the code establishes: each interval's lower endpoint is at least 0
and its upper endpoint is at most 1.  (The code clamps only in that
direction, so the full membership of both endpoints in [0, 1] claimed by
the specification can fail; see the counterexample.) -/
theorem claim_C5 (a : MakeSubplotsArgs) (fig : Figure)
    (h : make_subplots a = .ok fig) :
    ∀ kv ∈ fig.layout, entry_clamped kv.2 := by
  unfold make_subplots at h
  obtain ⟨p, hp, hb⟩ := ebind_ok h
  unfold build_figure at hb
  obtain ⟨st, hst, hb⟩ := ebind_ok hb
  obtain ⟨lm, hlm, hb⟩ := ebind_ok hb
  injection hb with hb'
  subst hb'
  have h0 : layout_clamped ([] : Layout) := by
    intro kv hkv
    simp at hkv
  have h1 := process_cells_clamped _ _ _ hst h0
  have h2 := configure_shared_axes_clamped st.grid_ref "x" p.shared_x p.row_dir h1
  have h3 := configure_shared_axes_clamped st.grid_ref "y" p.shared_y p.row_dir h2
  exact process_insets_clamped _ _ _ _ _ hlm h3

/-- C5 witness: the amended clamp theorem applied to the c5_args figure and
its xaxis1 entry. -/
theorem claim_C5_witness : entry_clamped (.axis (5, 1) "y1" none none) :=
  claim_C5 c5_args c5_fig (by with_unfolding_all decide)
    ("xaxis1", .axis (5, 1) "y1" none none) (by with_unfolding_all decide)

/-- C5 counterexample: the claim says both endpoints of every registered
interval lie in [0, 1] regardless of padding.  With left padding 5 on a
1 x 1 grid the code registers xaxis1 with domain (5, 1), whose first
endpoint exceeds 1: the clamp only bounds the lower endpoint from below
and the upper endpoint from above. -/
theorem claim_C5_counterexample :
    (make_subplots c5_args).map (fun f => assocGet f.layout "xaxis1")
      = .ok (some (.axis (5, 1) "y1" none none))
    ∧ ¬ ((5 : ℚ) ≤ 1) := by
  refine ⟨by with_unfolding_all decide, by norm_num⟩

theorem assocGet_assocSet_ne {α : Type} (l : List (String × α))
    (k k' : String) (v : α) (h : k' ≠ k) :
    assocGet (assocSet l k v) k' = assocGet l k' := by
  induction l with
  | nil =>
    simp only [assocSet, assocGet]
    rw [if_neg (fun e => h e.symm)]
  | cons hd tl ih =>
    obtain ⟨k2, v2⟩ := hd
    simp only [assocSet]
    by_cases hk : k2 = k
    · rw [if_pos hk]
      simp only [assocGet]
      rw [if_neg (fun e => h e.symm), if_neg (fun e => h (hk ▸ e).symm)]
    · rw [if_neg hk]
      simp only [assocGet]
      by_cases h2 : k2 = k'
      · rw [if_pos h2, if_pos h2]
      · rw [if_neg h2, if_neg h2]
        exact ih

theorem set_axis_matches_other {lay : Layout} {n f : String} {rl : Bool}
    {name : String} (h : name ≠ n) :
    assocGet (set_axis_matches lay n f rl) name = assocGet lay name := by
  unfold set_axis_matches
  cases hg : assocGet lay n with
  | none => rfl
  | some e =>
    cases e with
    | axis d a mm s => exact assocGet_assocSet_ne _ _ _ _ h
    | single x y => rfl

theorem update_axis_matches_other {x_or_y : String} {rl : Bool}
    {st : Layout × Option String} {ref : Option SubplotRef} {name : String}
    (h : ∀ r, ref = some r → ¬ linker_eligible x_or_y name r) :
    assocGet (update_axis_matches x_or_y rl st ref).1 name = assocGet st.1 name := by
  cases ref with
  | none => rfl
  | some r =>
    simp only [update_axis_matches]
    split_ifs with helig
    · cases hst : st.2 with
      | none => rfl
      | some fid =>
        refine set_axis_matches_other ?_
        intro heq
        exact h r rfl ⟨helig.1, helig.2, heq.symm⟩
    · rfl

theorem shared_pass_cells_other {x_or_y : String} {rl : Bool} {gr : GridRef}
    {name : String}
    (h : ∀ r c ref, grid_ref_at gr r c = some ref →
      ¬ linker_eligible x_or_y name ref) :
    ∀ (cells : List (Nat × Nat)) (st : Layout × Option String),
      assocGet (shared_pass_cells x_or_y rl gr cells st).1 name
        = assocGet st.1 name := by
  intro cells
  induction cells with
  | nil =>
    intro st
    rw [shared_pass_cells]
  | cons hd rest ih =>
    obtain ⟨r, c⟩ := hd
    intro st
    rw [shared_pass_cells]
    rw [ih]
    exact update_axis_matches_other (fun rr hrr => h r c rr hrr)

theorem shared_columns_mode_other {x_or_y : String} {rl : Bool} {gr : GridRef}
    {name : String} {rows_iter : List Nat}
    (h : ∀ r c ref, grid_ref_at gr r c = some ref →
      ¬ linker_eligible x_or_y name ref) :
    ∀ (cs : List Nat) (lay : Layout),
      assocGet (shared_columns_mode x_or_y rl gr rows_iter cs lay) name
        = assocGet lay name := by
  intro cs
  induction cs with
  | nil =>
    intro lay
    rw [shared_columns_mode]
  | cons c rest ih =>
    intro lay
    rw [shared_columns_mode]
    rw [ih, shared_pass_cells_other h]

theorem shared_rows_mode_other {x_or_y : String} {rl : Bool} {gr : GridRef}
    {name : String} {C : Nat}
    (h : ∀ r c ref, grid_ref_at gr r c = some ref →
      ¬ linker_eligible x_or_y name ref) :
    ∀ (rs : List Nat) (lay : Layout),
      assocGet (shared_rows_mode x_or_y rl gr C rs lay) name
        = assocGet lay name := by
  intro rs
  induction rs with
  | nil =>
    intro lay
    rw [shared_rows_mode]
  | cons r rest ih =>
    intro lay
    rw [shared_rows_mode]
    rw [ih, shared_pass_cells_other h]

theorem shared_all_mode_other {x_or_y : String} {row_dir : Int} {R : Nat}
    {gr : GridRef} {name : String}
    (h : ∀ r c ref, grid_ref_at gr r c = some ref →
      ¬ linker_eligible x_or_y name ref) :
    ∀ (cells : List (Nat × Nat × Nat)) (st : Layout × Option String),
      assocGet (shared_all_mode x_or_y row_dir R gr cells st).1 name
        = assocGet st.1 name := by
  intro cells
  induction cells with
  | nil =>
    intro st
    rw [shared_all_mode]
  | cons hd rest ih =>
    obtain ⟨c, ri, r⟩ := hd
    intro st
    rw [shared_all_mode]
    rw [ih]
    exact update_axis_matches_other (fun rr hrr => h r c rr hrr)

/-- C4 (amended): during one shared-axis pass, only layout entries named by
an eligible reference record are ever mutated — eligible meaning an xy
record whose span along the sharing direction is 1 (colspan for the x
pass, rowspan for the y pass) with the entry as its relevant layout key.
Every other layout entry is left exactly as it was, so a cell spanned
along the sharing direction never receives a matches assignment and never
has its tick labels hidden.  (The spanned cell of the original claim — a
cell with colspan > 1 or rowspan > 1 — is not protected when the span is
perpendicular to the sharing direction; see the counterexample.) -/
theorem claim_C4 (lay : Layout) (gr : GridRef) (x_or_y : String)
    (shared : SharedVal) (row_dir : Int) (name : String)
    (h : ∀ r c ref, grid_ref_at gr r c = some ref →
      ¬ linker_eligible x_or_y name ref) :
    assocGet (configure_shared_axes lay gr x_or_y shared row_dir) name
      = assocGet lay name := by
  unfold configure_shared_axes
  split_ifs <;>
    first
    | exact shared_columns_mode_other h _ _
    | exact shared_rows_mode_other h _ _
    | exact shared_all_mode_other h _ _
    | rfl

/-- C4 witness: a single xy cell with colspan 2 in a columns-mode x pass
keeps its xaxis1 entry untouched. -/
theorem claim_C4_witness :
    assocGet (configure_shared_axes c4w_layout c4w_grid_ref "x"
      (SharedVal.strV "columns") (-1)) "xaxis1"
      = assocGet c4w_layout "xaxis1" := by
  refine claim_C4 c4w_layout c4w_grid_ref "x" (SharedVal.strV "columns") (-1)
    "xaxis1" ?_
  intro r c ref h
  have hr : ref = c4w_ref := by
    cases r with
    | zero =>
      cases c with
      | zero =>
        simp only [grid_ref_at, c4w_grid_ref, List.getD] at h
        simpa using h.symm
      | succ n =>
        simp [grid_ref_at, c4w_grid_ref, List.getD] at h
    | succ n =>
      simp [grid_ref_at, c4w_grid_ref, List.getD] at h
  subst hr
  intro hel
  exact absurd hel.2.1 (by with_unfolding_all decide)

/-- C4 counterexample: the claim says a cell with colspan > 1 or
rowspan > 1 is never aliased.  On a 3 x 1 grid with shared x-axes whose
top cell has rowspan 2, the pass sets matches = x2 on that spanned cell's
xaxis1 and hides its tick labels: only the span along the sharing
direction protects a cell. -/
theorem claim_C4_counterexample :
    ((make_subplots c4_args).map (fun f => assocGet f.layout "xaxis1")
      = .ok (some (.axis (0, 1) "y1" (some "x2") (some false))))
    ∧ ((make_subplots c4_args).map (fun f => f.grid_ref.map (List.map
        (Option.map (fun r => (r.layout_keys, r.spec.map CellSpec.rowspan)))))
      = .ok [[some (["xaxis1", "yaxis1"], some 2)], [none],
             [some (["xaxis2", "yaxis2"], some 1)]]) := by
  refine ⟨by with_unfolding_all decide, by with_unfolding_all decide⟩

/-- C3: when make_subplots fails, the caller observes no layout at all.
The layout mutated during construction is created fresh inside the call
and only escapes through the returned figure; an error propagates instead
of any figure, so no axis or subplot entry registered for cells processed
before the failing cell is observable afterwards. -/
theorem claim_C3 (a : MakeSubplotsArgs) (e : String)
    (h : make_subplots a = .error e) :
    result_layout (make_subplots a) = []
      ∧ ∀ fig, make_subplots a ≠ Except.ok fig := by
  constructor
  · rw [h]
    rfl
  · intro fig hfig
    rw [h] at hfig
    exact Except.noConfusion hfig

/-- C3 witness: a grid whose first cell is processed (axes allocated on the
call-local layout) before the second cell fails its rowspan check; the
call yields no layout. -/
theorem claim_C3_witness : result_layout (make_subplots c3_args) = [] :=
  (claim_C3 c3_args rowspan_too_large_msg (by with_unfolding_all decide)).1

theorem pyGet_of_get?_some {α : Type} {l : List α} {i : Int} {v : α}
    (h0 : 0 ≤ i) (hv : l.get? i.toNat = some v) : pyGet l i = .ok v := by
  unfold pyGet
  rw [if_pos h0, hv]

theorem pyGet_oob {α : Type} {l : List α} {i : Int}
    (h0 : 0 ≤ i) (h : (l.length : Int) ≤ i) :
    pyGet l i = .error "IndexError" := by
  unfold pyGet
  rw [if_pos h0]
  have : l.get? i.toNat = none := by
    rw [List.get?_eq_none]
    omega
  rw [this]

theorem getD_of_get? {α : Type} {l : List α} {n : Nat} {v d : α}
    (h : l.get? n = some v) : l.getD n d = v := by
  rw [List.getD_eq_getElem?_getD, ← List.get?_eq_getElem?, h]
  rfl

theorem pyGet2_grid_ref_at {gr : GridRef} {row col : Int} {C : Nat}
    (hrect : ∀ rw ∈ gr, rw.length = C)
    (h1 : 1 ≤ row) (h2 : row ≤ (gr.length : Int))
    (h3 : 1 ≤ col) (h4 : col ≤ (C : Int)) :
    pyGet2 gr (row - 1) (col - 1)
      = .ok (grid_ref_at gr (row - 1).toNat (col - 1).toNat) := by
  have hr0 : (0 : Int) ≤ row - 1 := by omega
  have hrlt : (row - 1).toNat < gr.length := by omega
  obtain ⟨rw, hrw⟩ : ∃ rw, gr.get? (row - 1).toNat = some rw :=
    ⟨_, List.get?_eq_get hrlt⟩
  have hrwlen : rw.length = C := hrect rw (List.get?_mem hrw)
  have hc0 : (0 : Int) ≤ col - 1 := by omega
  have hclt : (col - 1).toNat < rw.length := by omega
  obtain ⟨cell, hcell⟩ : ∃ cell, rw.get? (col - 1).toNat = some cell :=
    ⟨_, List.get?_eq_get hclt⟩
  unfold pyGet2
  rw [pyGet_of_get?_some hr0 hrw]
  show pyGet rw (col - 1) = _
  rw [pyGet_of_get?_some hc0 hcell]
  unfold grid_ref_at
  rw [getD_of_get? hrw, getD_of_get? hcell]

/-- C9: the trace-binding operation fails on a position outside the
1-based grid bounds, fails on an empty cell, fails when the trace does
not support every trace_kwargs key of the cell (the key check runs before
any trace mutation, so a failing call leaves the trace untouched), and
otherwise applies every trace_kwargs entry onto the trace. -/
theorem claim_C9 (t : Trace) (gr : GridRef) (row col : Int) (C : Nat)
    (hrect : ∀ rw ∈ gr, rw.length = C) :
    ((row < 1 ∨ col < 1 ∨ (gr.length : Int) < row ∨ (C : Int) < col) →
      ∃ e, set_trace_grid_reference t gr row col = .error e)
    ∧ (1 ≤ row → row ≤ (gr.length : Int) → 1 ≤ col → col ≤ (C : Int) →
        (grid_ref_at gr (row - 1).toNat (col - 1).toNat = none →
          ∃ e, set_trace_grid_reference t gr row col = .error e)
        ∧ ∀ ref, grid_ref_at gr (row - 1).toNat (col - 1).toNat = some ref →
            ((¬ ∀ kv ∈ ref.trace_kwargs, t.supported.contains kv.1 = true) →
              ∃ e, set_trace_grid_reference t gr row col = .error e)
            ∧ ((∀ kv ∈ ref.trace_kwargs, t.supported.contains kv.1 = true) →
              set_trace_grid_reference t gr row col
                = .ok (trace_update t ref.trace_kwargs))) := by
  constructor
  · intro hout
    unfold set_trace_grid_reference
    rcases hout with h | h | h | h
    · rw [if_pos (by omega : row ≤ 0)]
      exact ⟨_, rfl⟩
    · by_cases hr : row ≤ 0
      · rw [if_pos hr]
        exact ⟨_, rfl⟩
      · rw [if_neg hr, if_pos (by omega : col ≤ 0)]
        exact ⟨_, rfl⟩
    · by_cases hr : row ≤ 0
      · rw [if_pos hr]
        exact ⟨_, rfl⟩
      · rw [if_neg hr]
        by_cases hc : col ≤ 0
        · rw [if_pos hc]
          exact ⟨_, rfl⟩
        · rw [if_neg hc]
          have : pyGet2 gr (row - 1) (col - 1) = .error "IndexError" := by
            unfold pyGet2
            rw [pyGet_oob (by omega) (by omega)]
            rfl
          rw [this]
          exact ⟨_, rfl⟩
    · by_cases hr : row ≤ 0
      · rw [if_pos hr]
        exact ⟨_, rfl⟩
      · rw [if_neg hr]
        by_cases hc : col ≤ 0
        · rw [if_pos hc]
          exact ⟨_, rfl⟩
        · rw [if_neg hc]
          have hr0 : (0 : Int) ≤ row - 1 := by omega
          by_cases hrow : row ≤ (gr.length : Int)
          · obtain ⟨rw', hrw⟩ : ∃ rw', gr.get? (row - 1).toNat = some rw' :=
              ⟨_, List.get?_eq_get (by omega)⟩
            have hrwlen : rw'.length = C := hrect rw' (List.get?_mem hrw)
            have : pyGet2 gr (row - 1) (col - 1) = .error "IndexError" := by
              unfold pyGet2
              rw [pyGet_of_get?_some hr0 hrw]
              show pyGet rw' (col - 1) = _
              rw [pyGet_oob (by omega) (by omega)]
            rw [this]
            exact ⟨_, rfl⟩
          · have : pyGet2 gr (row - 1) (col - 1) = .error "IndexError" := by
              unfold pyGet2
              rw [pyGet_oob (by omega) (by omega)]
              rfl
            rw [this]
            exact ⟨_, rfl⟩
  · intro h1 h2 h3 h4
    have hpy := pyGet2_grid_ref_at hrect h1 h2 h3 h4
    constructor
    · intro hnone
      unfold set_trace_grid_reference
      rw [if_neg (by omega : ¬ row ≤ 0), if_neg (by omega : ¬ col ≤ 0), hpy, hnone]
      exact ⟨_, rfl⟩
    · intro ref href
      constructor
      · intro hbad
        unfold set_trace_grid_reference
        rw [if_neg (by omega : ¬ row ≤ 0), if_neg (by omega : ¬ col ≤ 0), hpy, href]
        simp only [ebind]
        rw [if_neg hbad]
        exact ⟨_, rfl⟩
      · intro hgood
        unfold set_trace_grid_reference
        rw [if_neg (by omega : ¬ row ≤ 0), if_neg (by omega : ¬ col ≤ 0), hpy, href]
        simp only [ebind]
        rw [if_pos hgood]

/-- C9 witness: binding a pie-like trace (supporting only domain) to the
xy cell (1, 1) fails the compatibility check (Scenario E). -/
theorem claim_C9_witness :
    ∃ e, set_trace_grid_reference c9_trace c9_grid_ref 1 1 = .error e :=
  (((claim_C9 c9_trace c9_grid_ref 1 1 2
      (by with_unfolding_all decide)).2
    (by with_unfolding_all decide) (by with_unfolding_all decide)
    (by with_unfolding_all decide) (by with_unfolding_all decide)).2
    c9_xyref (by with_unfolding_all decide)).1
    (by with_unfolding_all decide)

/-- C10: the normalization make_subplots performs in place on each
caller-supplied spec dict and inset dict — observable in the caller's own
dict object after the call — pops the legacy is_3d key (setting type to
scene when it was truthy) and inserts exactly the absent recognized
default keys, leaving supplied values alone; it fails when the dict holds
an unrecognized key. -/
theorem claim_C10 (d : CellSpecIn) (i : InsetSpecIn)
    (hd : d.extra = []) (hi : i.extra = []) :
    spec_normalize d = .ok
      { type := some (if d.is_3d = some true then "scene" else d.type.getD "xy"),
        colspan := some (d.colspan.getD 1),
        rowspan := some (d.rowspan.getD 1),
        l := some (d.l.getD 0), r := some (d.r.getD 0),
        b := some (d.b.getD 0), t := some (d.t.getD 0),
        is_3d := none, extra := [] }
    ∧ inset_normalize i = .ok
      { cell := some (i.cell.getD (1, 1)),
        type := some (if i.is_3d = some true then "scene" else i.type.getD "xy"),
        l := some (i.l.getD 0), w := some (i.w.getD .to_end),
        b := some (i.b.getD 0), h := some (i.h.getD .to_end),
        is_3d := none, extra := [] } := by
  constructor
  · cases h3 : d.is_3d with
    | none =>
      simp [spec_normalize, translate_is3d, check_keys_and_fill_spec, hd, h3]
    | some b =>
      cases b <;>
        simp [spec_normalize, translate_is3d, check_keys_and_fill_spec, hd, h3]
  · cases h3 : i.is_3d with
    | none =>
      simp [inset_normalize, inset_translate_is3d, check_keys_and_fill_inset, hi, h3]
    | some b =>
      cases b <;>
        simp [inset_normalize, inset_translate_is3d, check_keys_and_fill_inset, hi, h3]

/-- C10 witness: a spec dict with type xy, a truthy is_3d and left padding
1/4, and an inset dict with only a truthy is_3d, are rewritten in place to
their filled forms with is_3d removed and type forced to scene. -/
theorem claim_C10_witness :
    spec_normalize c10_spec_dict = .ok
      { type := some "scene", colspan := some 1, rowspan := some 1,
        l := some (1/4), r := some 0, b := some 0, t := some 0,
        is_3d := none, extra := [] }
    ∧ inset_normalize c10_inset_dict = .ok
      { cell := some (1, 1), type := some "scene",
        l := some 0, w := some .to_end, b := some 0, h := some .to_end,
        is_3d := none, extra := [] } :=
  claim_C10 c10_spec_dict c10_inset_dict rfl rfl

theorem pyGet_ok_of_lt {α : Type} {l : List α} {i : Int}
    (h0 : 0 ≤ i) (h : i < (l.length : Int)) : ∃ v, pyGet l i = .ok v := by
  have hlt : i.toNat < l.length := by omega
  exact ⟨_, pyGet_of_get?_some h0 (List.get?_eq_get hlt)⟩

theorem pyGet_neg_ok {α : Type} {l : List α} {i : Int}
    (h0 : i < 0) (h : 0 ≤ i + l.length) : ∃ v, pyGet l i = .ok v := by
  unfold pyGet
  rw [if_neg (by omega), if_pos h]
  have hlt : (i + l.length).toNat < l.length := by omega
  rw [List.get?_eq_get hlt]
  exact ⟨_, rfl⟩

theorem pyGet_mem {α : Type} {l : List α} {i : Int} {v : α}
    (h : pyGet l i = .ok v) : v ∈ l := by
  unfold pyGet at h
  split_ifs at h
  · cases hm : l.get? i.toNat with
    | none => rw [hm] at h; exact Except.noConfusion h
    | some w =>
      rw [hm] at h
      injection h with h'
      exact h' ▸ List.get?_mem hm
  · cases hm : l.get? (i + l.length).toNat with
    | none => rw [hm] at h; exact Except.noConfusion h
    | some w =>
      rw [hm] at h
      injection h with h'
      exact h' ▸ List.get?_mem hm

theorem pyGet_error_msg {α : Type} {l : List α} {i : Int} {e : String}
    (h : pyGet l i = .error e) : e = "IndexError" := by
  unfold pyGet at h
  split_ifs at h
  · cases hm : l.get? i.toNat with
    | none => rw [hm] at h; injection h with h'; exact h'.symm
    | some w => rw [hm] at h; exact Except.noConfusion h
  · cases hm : l.get? (i + l.length).toNat with
    | none => rw [hm] at h; injection h with h'; exact h'.symm
    | some w => rw [hm] at h; exact Except.noConfusion h
  · injection h with h'; exact h'.symm

theorem pyGet2_ok_rect {α : Type} {l : List (List α)} {i j : Int} {C : Nat}
    (hrows : ∀ row ∈ l, row.length = C)
    (h0 : 0 ≤ i) (h : i < (l.length : Int)) (h0' : 0 ≤ j) (h' : j < (C : Int)) :
    ∃ v, pyGet2 l i j = .ok v := by
  obtain ⟨row, hrow⟩ := pyGet_ok_of_lt h0 h
  have hlen : row.length = C := hrows row (pyGet_mem hrow)
  obtain ⟨v, hv⟩ := pyGet_ok_of_lt h0' (by rw [hlen]; exact h')
  refine ⟨v, ?_⟩
  unfold pyGet2
  rw [hrow]
  exact hv

theorem pyGet2_error_msg {α : Type} {l : List (List α)} {i j : Int} {e : String}
    (h : pyGet2 l i j = .error e) : e = "IndexError" := by
  unfold pyGet2 at h
  cases hr : pyGet l i with
  | error e1 =>
    rw [hr] at h
    injection h with h'
    exact h' ▸ pyGet_error_msg hr
  | ok row =>
    rw [hr] at h
    exact pyGet_error_msg h

theorem init_subplot_ok {lay : Layout} {t : String} {xd yd : ℚ × ℚ} {m : MaxIds}
    (htype : valid_subplot_type t) :
    ∃ out, init_subplot lay t xd yd m = .ok out := by
  unfold init_subplot
  rcases htype with h | h | h
  · rw [if_pos h]
    exact ⟨_, rfl⟩
  · fin_cases h <;>
      first
      | (rw [if_neg (by decide), if_pos (by decide)]; exact ⟨_, rfl⟩)
  · subst h
    rw [if_neg (by decide), if_neg (by decide), if_pos rfl]
    exact ⟨_, rfl⟩

theorem init_subplot_error_msg {lay : Layout} {t : String} {xd yd : ℚ × ℚ}
    {m : MaxIds} {e : String}
    (h : init_subplot lay t xd yd m = .error e) :
    e = "Invalid subplot type " ++ t := by
  unfold init_subplot at h
  split_ifs at h
  injection h with h'
  exact h'.symm

theorem process_cell_ok {p : Prepared} {grid : List (List (ℚ × ℚ))}
    {r c : Nat} {spec : CellSpec} (st : BuildState)
    (hgl : grid.length = p.R) (hgr : ∀ row ∈ grid, row.length = p.C)
    (hw : p.widths.length = p.C) (hh : p.heights.length = p.R)
    (hr : r < p.R) (hc : c < p.C)
    (htype : valid_subplot_type spec.type)
    (hcs : 1 ≤ spec.colspan) (hrs : 1 ≤ spec.rowspan)
    (hnb : ¬ cell_is_bad_span p.R p.C (r, c, some spec)) :
    ∃ st2, process_cell p grid r c spec st = .ok st2 := by
  have hnb' : ¬ ((c : Int) + spec.colspan - 1 ≥ (p.C : Int)
      ∨ (r : Int) + spec.rowspan - 1 ≥ (p.R : Int)) := hnb
  push_neg at hnb'
  obtain ⟨hnbc, hnbr⟩ := hnb'
  unfold process_cell
  rw [if_neg (by omega), if_neg (by omega)]
  obtain ⟨g_rc, h1⟩ := pyGet2_ok_rect (i := (r : Int)) (j := (c : Int)) hgr
      (by omega) (by omega) (by omega) (by omega)
  rw [h1]
  simp only [ebind]
  obtain ⟨g_rcs, h2⟩ := pyGet2_ok_rect (i := (r : Int))
      (j := (c : Int) + spec.colspan - 1) hgr
      (by omega) (by omega) (by omega) (by omega)
  rw [h2]
  simp only [ebind]
  obtain ⟨w_cs, h3⟩ := pyGet_ok_of_lt (l := p.widths)
      (i := (c : Int) + spec.colspan - 1) (by omega) (by omega)
  rw [h3]
  simp only [ebind]
  by_cases hdir : p.row_dir > 0
  · rw [if_pos hdir]
    obtain ⟨g_rs, h4⟩ := pyGet2_ok_rect (i := (r : Int) + spec.rowspan - 1)
        (j := (c : Int)) hgr (by omega) (by omega) (by omega) (by omega)
    rw [h4]
    simp only [ebind]
    obtain ⟨h_rs, h5⟩ := pyGet_ok_of_lt (l := p.heights)
        (i := (r : Int) + spec.rowspan - 1) (by omega) (by omega)
    rw [h5]
    simp only [ebind]
    obtain ⟨out, h6⟩ := @init_subplot_ok st.layout _ _ _ st.max_ids htype
    rw [h6]
    exact ⟨_, rfl⟩
  · rw [if_neg hdir]
    obtain ⟨g_rs, h4⟩ := pyGet2_ok_rect (i := (r : Int) + spec.rowspan - 1)
        (j := (c : Int)) hgr (by omega) (by omega) (by omega) (by omega)
    rw [h4]
    simp only [ebind]
    obtain ⟨h_last, h5⟩ := pyGet_neg_ok (l := p.heights)
        (i := -1 - (r : Int)) (by omega) (by omega)
    rw [h5]
    simp only [ebind]
    obtain ⟨out, h6⟩ := @init_subplot_ok st.layout _ _ _ st.max_ids htype
    rw [h6]
    exact ⟨_, rfl⟩

theorem process_cell_err_of_bad {p : Prepared} {grid : List (List (ℚ × ℚ))}
    {r c : Nat} {spec : CellSpec} (st : BuildState)
    (hb : cell_is_bad_span p.R p.C (r, c, some spec)) :
    ∃ e, process_cell p grid r c spec st = .error e ∧ is_span_error e := by
  have hb' : (c : Int) + spec.colspan - 1 ≥ (p.C : Int)
      ∨ (r : Int) + spec.rowspan - 1 ≥ (p.R : Int) := hb
  unfold process_cell
  by_cases hc : (c : Int) + spec.colspan - 1 ≥ (p.C : Int)
  · rw [if_pos hc]
    exact ⟨_, rfl, Or.inl rfl⟩
  · rw [if_neg hc, if_pos (by omega)]
    exact ⟨_, rfl, Or.inr rfl⟩

theorem process_cells_ok_of_no_bad {p : Prepared} {grid : List (List (ℚ × ℚ))}
    (hgl : grid.length = p.R) (hgr : ∀ row ∈ grid, row.length = p.C)
    (hw : p.widths.length = p.C) (hh : p.heights.length = p.R) :
    ∀ (cells : List (Nat × Nat × Option CellSpec)),
      (∀ x ∈ cells, cell_types_ok x ∧ x.1 < p.R ∧ x.2.1 < p.C) →
      (∀ x ∈ cells, ¬ cell_is_bad_span p.R p.C x) →
      ∀ st : BuildState, ∃ st2, process_cells p grid cells st = .ok st2 := by
  intro cells
  induction cells with
  | nil =>
    intro _ _ st
    exact ⟨st, rfl⟩
  | cons hd rest ih =>
    obtain ⟨r, c, sp⟩ := hd
    intro hcells hnobad st
    cases sp with
    | none =>
      rw [process_cells]
      exact ih (fun x hx => hcells x (List.mem_cons_of_mem _ hx))
        (fun x hx => hnobad x (List.mem_cons_of_mem _ hx)) st
    | some spec =>
      obtain ⟨hty, hr, hc⟩ := hcells _ (List.mem_cons_self _ _)
      obtain ⟨st2, hst2⟩ := process_cell_ok st hgl hgr hw hh hr hc
        hty.1 hty.2.1 hty.2.2 (hnobad _ (List.mem_cons_self _ _))
      rw [process_cells, hst2]
      simp only [ebind]
      exact ih (fun x hx => hcells x (List.mem_cons_of_mem _ hx))
        (fun x hx => hnobad x (List.mem_cons_of_mem _ hx)) st2

theorem process_cells_err_of_bad {p : Prepared} {grid : List (List (ℚ × ℚ))}
    (hgl : grid.length = p.R) (hgr : ∀ row ∈ grid, row.length = p.C)
    (hw : p.widths.length = p.C) (hh : p.heights.length = p.R) :
    ∀ (cells : List (Nat × Nat × Option CellSpec)),
      (∀ x ∈ cells, cell_types_ok x ∧ x.1 < p.R ∧ x.2.1 < p.C) →
      (∃ x ∈ cells, cell_is_bad_span p.R p.C x) →
      ∀ st : BuildState,
        ∃ e, process_cells p grid cells st = .error e ∧ is_span_error e := by
  intro cells
  induction cells with
  | nil =>
    intro _ hbad st
    obtain ⟨x, hx, _⟩ := hbad
    exact absurd hx (List.not_mem_nil x)
  | cons hd rest ih =>
    obtain ⟨r, c, sp⟩ := hd
    intro hcells hbad st
    cases sp with
    | none =>
      rw [process_cells]
      refine ih (fun x hx => hcells x (List.mem_cons_of_mem _ hx)) ?_ st
      obtain ⟨x, hx, hxb⟩ := hbad
      rcases List.mem_cons.1 hx with h | h
      · subst h
        exact absurd hxb (by intro hf; exact hf)
      · exact ⟨x, h, hxb⟩
    | some spec =>
      by_cases hheadbad : cell_is_bad_span p.R p.C (r, c, some spec)
      · obtain ⟨e, he, hspan⟩ := process_cell_err_of_bad st hheadbad
        rw [process_cells, he]
        exact ⟨e, rfl, hspan⟩
      · obtain ⟨hty, hr, hc⟩ := hcells _ (List.mem_cons_self _ _)
        obtain ⟨st2, hst2⟩ := process_cell_ok st hgl hgr hw hh hr hc
          hty.1 hty.2.1 hty.2.2 hheadbad
        rw [process_cells, hst2]
        simp only [ebind]
        refine ih (fun x hx => hcells x (List.mem_cons_of_mem _ hx)) ?_ st2
        obtain ⟨x, hx, hxb⟩ := hbad
        rcases List.mem_cons.1 hx with h | h
        · subst h
          exact absurd hxb hheadbad
        · exact ⟨x, h, hxb⟩

theorem process_insets_err_not_span {p : Prepared}
    {grid : List (List (ℚ × ℚ))} :
    ∀ (insets : List InsetSpec) (lay : Layout) (m : MaxIds) (e : String),
      (∀ ins ∈ insets, valid_subplot_type ins.type) →
      process_insets p grid insets lay m = .error e →
      ¬ is_span_error e := by
  intro insets
  induction insets with
  | nil =>
    intro lay m e _ h
    rw [process_insets] at h
    exact Except.noConfusion h
  | cons hd rest ih =>
    intro lay m e htypes h
    rw [process_insets] at h
    split_ifs at h
    · cases h1 : pyGet2 grid (hd.cell.1 - 1) (hd.cell.2 - 1) with
      | error e1 =>
        rw [h1] at h
        simp only [ebind] at h
        injection h with h'
        subst h'
        have := pyGet2_error_msg h1
        subst this
        intro hs
        rcases hs with hs | hs <;> exact absurd hs (by decide)
      | ok g_rc =>
        rw [h1] at h
        simp only [ebind] at h
        cases h2 : pyGet p.widths (hd.cell.2 - 1) with
        | error e2 =>
          rw [h2] at h
          simp only [ebind] at h
          injection h with h'
          subst h'
          have := pyGet_error_msg h2
          subst this
          intro hs
          rcases hs with hs | hs <;> exact absurd hs (by decide)
        | ok w_c =>
          rw [h2] at h
          simp only [ebind] at h
          cases h3 : pyGet p.heights (-1 - (hd.cell.1 - 1)) with
          | error e3 =>
            rw [h3] at h
            simp only [ebind] at h
            injection h with h'
            subst h'
            have := pyGet_error_msg h3
            subst this
            intro hs
            rcases hs with hs | hs <;> exact absurd hs (by decide)
          | ok h_r =>
            rw [h3] at h
            simp only [ebind] at h
            obtain ⟨out, hout⟩ :=
              init_subplot_ok (htypes hd (List.mem_cons_self _ _))
            rw [hout] at h
            simp only [ebind] at h
            exact ih _ _ _ (fun x hx => htypes x (List.mem_cons_of_mem _ hx)) h
    · injection h with h'
      subst h'
      intro hs
      rcases hs with hs | hs <;> exact absurd hs (by decide)
    · injection h with h'
      subst h'
      intro hs
      rcases hs with hs | hs <;> exact absurd hs (by decide)

theorem list_mapE_length {α β : Type} {f : α → Except String β} :
    ∀ {l : List α} {l2 : List β}, list_mapE f l = .ok l2 → l2.length = l.length := by
  intro l
  induction l with
  | nil =>
    intro l2 h
    rw [list_mapE] at h
    injection h with h'
    rw [← h']
    rfl
  | cons x xs ih =>
    intro l2 h
    rw [list_mapE] at h
    obtain ⟨y, hy, h⟩ := ebind_ok h
    obtain ⟨ys, hys, h⟩ := ebind_ok h
    injection h with h'
    rw [← h']
    simp [ih hys]

theorem list_mapE_mem {α β : Type} {f : α → Except String β} :
    ∀ {l : List α} {l2 : List β}, list_mapE f l = .ok l2 →
      ∀ y ∈ l2, ∃ x ∈ l, f x = .ok y := by
  intro l
  induction l with
  | nil =>
    intro l2 h y hy
    rw [list_mapE] at h
    injection h with h'
    rw [← h'] at hy
    exact absurd hy (List.not_mem_nil y)
  | cons x xs ih =>
    intro l2 h y hy
    rw [list_mapE] at h
    obtain ⟨y0, hy0, h⟩ := ebind_ok h
    obtain ⟨ys, hys, h⟩ := ebind_ok h
    injection h with h'
    rw [← h'] at hy
    rcases List.mem_cons.1 hy with h1 | h1
    · exact ⟨x, List.mem_cons_self _ _, h1 ▸ hy0⟩
    · obtain ⟨x2, hx2, hfx2⟩ := ih hys y h1
      exact ⟨x2, List.mem_cons_of_mem _ hx2, hfx2⟩

theorem compute_widths_length {C : Nat} {mw hs : ℚ} {cw : Option (List ℚ)}
    {out : List ℚ} (h : compute_widths C mw hs cw = .ok out) :
    out.length = C := by
  cases cw with
  | none =>
    rw [compute_widths] at h
    injection h with h'
    rw [← h']
    simp
  | some l =>
    rw [compute_widths] at h
    split_ifs at h with hlen
    injection h with h'
    rw [← h']
    simp [hlen]

theorem compute_heights_length {R : Nat} {vs : ℚ} {rd : Int} {lg : Bool}
    {rh : Option (List ℚ)} {out : List ℚ}
    (h : compute_heights R vs rd lg rh = .ok out) : out.length = R := by
  cases rh with
  | none =>
    rw [compute_heights] at h
    injection h with h'
    rw [← h']
    simp
  | some l =>
    rw [compute_heights] at h
    split_ifs at h with h1 hlen
    all_goals
      injection h with h'
      subst h'
      simp [h1]

theorem normalize_specs_dims {R C : Nat}
    {s : Option (List (List (Option CellSpecIn)))}
    {out : List (List (Option CellSpec))}
    (h : normalize_specs R C s = .ok out) :
    out.length = R ∧ ∀ row ∈ out, row.length = C := by
  unfold normalize_specs at h
  obtain ⟨raw, hraw, h⟩ := ebind_ok h
  obtain ⟨filled, hfill, h⟩ := ebind_ok h
  injection h with h'
  have hrawdims : raw.length = R ∧ ∀ row ∈ raw, row.length = C := by
    cases s with
    | none =>
      rw [specs_default_or_check] at hraw
      injection hraw with h2
      rw [← h2]
      constructor
      · simp
      · intro row hrow
        rw [List.eq_of_mem_replicate hrow]
        simp
    | some s0 =>
      rw [specs_default_or_check] at hraw
      split_ifs at hraw with hcond
      injection hraw with h2
      rw [← h2]
      exact hcond
  constructor
  · rw [← h']
    simp [list_mapE_length hfill, hrawdims.1]
  · intro row hrow
    rw [← h'] at hrow
    obtain ⟨frow, hfrow, hmap⟩ := List.mem_map.1 hrow
    obtain ⟨rrow, hrrow, hfr⟩ := list_mapE_mem hfill frow hfrow
    rw [← hmap]
    simp [list_mapE_length hfr, hrawdims.2 rrow hrrow]

theorem validate_dims {a : MakeSubplotsArgs} {p : Prepared}
    (hv : validate_and_normalize a = .ok p) :
    p.specs.length = p.R ∧ (∀ row ∈ p.specs, row.length = p.C)
      ∧ p.widths.length = p.C ∧ p.heights.length = p.R
      ∧ 1 ≤ p.R ∧ 1 ≤ p.C := by
  unfold validate_and_normalize at hv
  split_ifs at hv
  all_goals
    obtain ⟨rd, hrd, hv⟩ := ebind_ok hv
    obtain ⟨w, hw, hv⟩ := ebind_ok hv
    obtain ⟨hts, hh, hv⟩ := ebind_ok hv
    obtain ⟨sp, hsp, hv⟩ := ebind_ok hv
    obtain ⟨ins, hins, hv⟩ := ebind_ok hv
    first
      | exact Except.noConfusion hv
      | (injection hv with hv'
         have hdims := normalize_specs_dims hsp
         refine ⟨?_, ?_, ?_, ?_, ?_, ?_⟩ <;> rw [← hv'] <;>
           first
             | exact hdims.1
             | exact hdims.2
             | exact compute_widths_length hw
             | exact compute_heights_length hh
             | exact (show 1 ≤ a.rows.toNat by omega)
             | exact (show 1 ≤ a.cols.toNat by omega))

theorem ebind_error {α β : Type} {e : Except String α}
    {f : α → Except String β} {msg : String}
    (h : ebind e f = .error msg) :
    e = .error msg ∨ ∃ a, e = .ok a ∧ f a = .error msg := by
  cases e with
  | ok a => exact Or.inr ⟨a, rfl, h⟩
  | error m =>
    left
    injection h with h'
    rw [h']

theorem build_grid_length (p : Prepared) : (build_grid p).length = p.R := by
  unfold build_grid
  split_ifs <;> simp

theorem build_grid_rows (p : Prepared) :
    ∀ row ∈ build_grid p, row.length = p.C := by
  intro row hrow
  unfold build_grid at hrow
  obtain ⟨r, _, hmap⟩ := List.mem_map.1 hrow
  rw [← hmap]
  simp

theorem cellsOf_bounds {specs : List (List (Option CellSpec))} {R C : Nat}
    (h1 : specs.length = R) (h2 : ∀ row ∈ specs, row.length = C) :
    ∀ x ∈ cellsOf specs, x.1 < R ∧ x.2.1 < C := by
  intro x hx
  unfold cellsOf at hx
  rw [List.mem_flatMap] at hx
  obtain ⟨rr, hrr, hx⟩ := hx
  rw [List.mem_map] at hx
  obtain ⟨cc, hcc, hx⟩ := hx
  rw [List.mem_enum_iff_getElem?] at hrr
  rw [List.mem_enum_iff_getElem?] at hcc
  obtain ⟨hrlt, _⟩ := List.getElem?_eq_some.1 hrr
  obtain ⟨hclt, _⟩ := List.getElem?_eq_some.1 hcc
  have hrowlen : rr.2.length = C := by
    refine h2 rr.2 ?_
    have := List.getElem?_eq_some.1 hrr
    obtain ⟨hl, hget⟩ := this
    rw [← hget]
    exact List.getElem_mem hl
  rw [← hx]
  constructor
  · rw [← h1]
    exact hrlt
  · rw [← hrowlen]
    exact hclt

/-- C7: assuming validation succeeds and every non-None cell of the
normalized spec grid carries a recognized type with positive spans (and
inset types are recognized), make_subplots fails with one of the two
span-out-of-range errors exactly when some traversed cell's colspan or
rowspan reaches past the grid bounds: zero-based column c with
c + colspan - 1 >= cols, or the symmetric condition for rows. -/
theorem claim_C7 (a : MakeSubplotsArgs)
    (hok : (validate_and_normalize a).toOption.isSome = true)
    (hwf : ∀ x ∈ cellsOf (prep_specs a), cell_types_ok x)
    (hwf2 : ∀ ins ∈ prep_insets a, valid_subplot_type ins.type) :
    ((∃ e, make_subplots a = .error e ∧ is_span_error e) ↔
      ∃ x ∈ cellsOf (prep_specs a),
        cell_is_bad_span (prep_R a) (prep_C a) x) := by
  cases hv : validate_and_normalize a with
  | error e =>
    rw [hv] at hok
    simp [Except.toOption] at hok
  | ok p =>
    have hps : prep_specs a = p.specs := by
      unfold prep_specs
      rw [hv]
    have hpR : prep_R a = p.R := by
      unfold prep_R
      rw [hv]
    have hpC : prep_C a = p.C := by
      unfold prep_C
      rw [hv]
    have hpI : prep_insets a = p.insets := by
      unfold prep_insets
      rw [hv]
    rw [hps, hpR, hpC]
    rw [hps] at hwf
    rw [hpI] at hwf2
    have hmk : make_subplots a = build_figure p := by
      unfold make_subplots
      rw [hv]
      rfl
    obtain ⟨hd1, hd2, hd3, hd4, hd5, hd6⟩ := validate_dims hv
    have hgl := build_grid_length p
    have hgr := build_grid_rows p
    have hbounds := cellsOf_bounds hd1 hd2
    have hcells : ∀ x ∈ cellsOf p.specs,
        cell_types_ok x ∧ x.1 < p.R ∧ x.2.1 < p.C :=
      fun x hx => ⟨hwf x hx, hbounds x hx⟩
    constructor
    · rintro ⟨e, he, hspan⟩
      by_contra hnone
      push_neg at hnone
      obtain ⟨st2, hst2⟩ := process_cells_ok_of_no_bad hgl hgr hd3 hd4 _
        hcells hnone (init_build_state p)
      rw [hmk] at he
      unfold build_figure at he
      rcases ebind_error he with h | ⟨st, hst, he2⟩
      · rw [hst2] at h
        exact Except.noConfusion h
      · rw [hst2] at hst
        injection hst with hst'
        subst hst'
        rcases ebind_error he2 with h | ⟨lm, hlm, he3⟩
        · exact process_insets_err_not_span _ _ _ _ hwf2 h hspan
        · exact Except.noConfusion he3
    · intro hbad
      obtain ⟨e, he, hspan⟩ := process_cells_err_of_bad hgl hgr hd3 hd4 _
        hcells hbad (init_build_state p)
      refine ⟨e, ?_, hspan⟩
      rw [hmk]
      unfold build_figure
      rw [he]
      rfl

/-- C7 witness: a 1 x 1 grid whose cell asks for colspan 2 satisfies the
hypotheses and fails with a span error. -/
theorem claim_C7_witness :
    ∃ e, make_subplots c7_args = .error e ∧ is_span_error e :=
  (claim_C7 c7_args (by with_unfolding_all decide)
    (by with_unfolding_all decide) (by with_unfolding_all decide)).mpr
    (by with_unfolding_all decide)

theorem getD_of_get?_none {α : Type} {l : List α} {n : Nat} {d : α}
    (h : l.get? n = none) : l.getD n d = d := by
  rw [List.getD_eq_getElem?_getD, ← List.get?_eq_getElem?, h]
  rfl

theorem getD_set {α : Type} (l : List α) (i j : Nat) (a d : α) :
    (l.set i a).getD j d = if i = j ∧ i < l.length then a else l.getD j d := by
  rw [List.getD_eq_getElem?_getD, List.getD_eq_getElem?_getD, List.getElem?_set]
  by_cases h1 : i = j
  · by_cases h2 : i < l.length
    · rw [if_pos h1, if_pos h2, if_pos ⟨h1, h2⟩]
      rfl
    · rw [if_pos h1, if_neg h2, if_neg (fun hc => h2 hc.2)]
      subst h1
      have : l[i]? = none := by
        rw [← List.get?_eq_getElem?]
        rw [List.get?_eq_none]
        omega
      rw [this]
  · rw [if_neg h1, if_neg (fun hc => h1 hc.1)]

theorem assocGet_assocSet_self {α : Type} (l : List (String × α))
    (k : String) (v : α) : assocGet (assocSet l k v) k = some v := by
  induction l with
  | nil => simp [assocSet, assocGet]
  | cons hd tl ih =>
    obtain ⟨k2, v2⟩ := hd
    simp only [assocSet]
    by_cases h : k2 = k
    · rw [if_pos h]
      simp [assocGet]
    · rw [if_neg h]
      simp only [assocGet]
      rw [if_neg h]
      exact ih

theorem assocSet_mono {α : Type} (l : List (String × α)) (k : String) (v : α) :
    ∀ k2, (assocGet l k2).isSome = true →
      (assocGet (assocSet l k v) k2).isSome = true := by
  intro k2 h
  by_cases hk : k2 = k
  · subst hk
    rw [assocGet_assocSet_self]
    rfl
  · rw [assocGet_assocSet_ne _ _ _ _ hk]
    exact h

theorem init_subplot_xy_props (lay : Layout) (xd yd : ℚ × ℚ) (m : MaxIds) :
    ref_wf (init_subplot_xy lay xd yd m).2.1
    ∧ keys_present (init_subplot_xy lay xd yd m).1 (init_subplot_xy lay xd yd m).2.1
    ∧ layKeysMono lay (init_subplot_xy lay xd yd m).1 := by
  simp only [init_subplot_xy]
  refine ⟨Or.inr (Or.inr ⟨toString (idsGet m "xaxis" + 1),
    toString (idsGet m "yaxis" + 1), rfl, rfl⟩), ?_, ?_⟩
  · intro k hk
    rcases List.mem_cons.1 hk with h | h
    · subst h
      exact assocSet_mono _ _ _ _ (by rw [assocGet_assocSet_self]; rfl)
    · rcases List.mem_cons.1 h with h | h
      · subst h
        rw [assocGet_assocSet_self]
        rfl
      · exact absurd h (List.not_mem_nil _)
  · intro k hk
    exact assocSet_mono _ _ _ _ (assocSet_mono _ _ _ _ hk)

theorem init_subplot_single_props (lay : Layout) (t : String) (xd yd : ℚ × ℚ)
    (m : MaxIds) :
    ref_wf (init_subplot_single lay t xd yd m).2.1
    ∧ keys_present (init_subplot_single lay t xd yd m).1
        (init_subplot_single lay t xd yd m).2.1
    ∧ layKeysMono lay (init_subplot_single lay t xd yd m).1 := by
  simp only [init_subplot_single]
  refine ⟨Or.inr (Or.inl ⟨t ++ toString (idsGet m t + 1), _, rfl, rfl⟩), ?_, ?_⟩
  · intro k hk
    rcases List.mem_cons.1 hk with h | h
    · subst h
      rw [assocGet_assocSet_self]
      rfl
    · exact absurd h (List.not_mem_nil _)
  · intro k hk
    exact assocSet_mono _ _ _ _ hk

theorem init_subplot_props {lay lay' : Layout} {t : String} {xd yd : ℚ × ℚ}
    {m m' : MaxIds} {ref : SubplotRef}
    (h : init_subplot lay t xd yd m = .ok (lay', ref, m')) :
    ref_wf ref ∧ keys_present lay' ref ∧ layKeysMono lay lay' := by
  unfold init_subplot at h
  split_ifs at h
  all_goals
    injection h with h'
    have h1 := congrArg Prod.fst h'
    have h2 := congrArg (fun q => q.2.1) h'
    simp only at h1 h2
    rw [← h1, ← h2]
  · exact init_subplot_xy_props lay _ _ m
  · exact init_subplot_single_props lay t _ _ m
  · refine ⟨Or.inl ⟨rfl, _, _, rfl⟩, ?_, fun k hk => hk⟩
    intro k hk
    simp [init_subplot_domain] at hk

theorem keys_present_mono {lay lay2 : Layout} {ref : SubplotRef}
    (hm : layKeysMono lay lay2) (h : keys_present lay ref) :
    keys_present lay2 ref :=
  fun k hk => hm k (h k hk)

theorem set2d_length {α : Type} (l : List (List α)) (r c : Nat) (v : α) :
    (set2d l r c v).length = l.length := by
  unfold set2d
  cases l.get? r <;> simp

theorem set2d_rows_length {α : Type} {l : List (List α)} {C : Nat}
    {r c : Nat} {v : α} (h : ∀ row ∈ l, row.length = C) :
    ∀ row ∈ set2d l r c v, row.length = C := by
  intro row hrow
  unfold set2d at hrow
  cases hg : l.get? r with
  | none =>
    rw [hg] at hrow
    exact h row hrow
  | some row0 =>
    rw [hg] at hrow
    rcases List.mem_or_eq_of_mem_set hrow with h1 | h1
    · exact h row h1
    · rw [h1, List.length_set]
      exact h row0 (List.get?_mem hg)

theorem grid_ref_at_set2d {g : GridRef} {r c : Nat} {v : Option SubplotRef}
    (r' c' : Nat) :
    grid_ref_at (set2d g r c v) r' c' = grid_ref_at g r' c'
      ∨ grid_ref_at (set2d g r c v) r' c' = v := by
  unfold set2d grid_ref_at
  cases hg : g.get? r with
  | none => exact Or.inl rfl
  | some row0 =>
    rw [getD_set]
    split_ifs with h1
    · have hgrow : g.getD r' [] = row0 := by
        rw [← h1.1]
        exact getD_of_get? hg
      rw [getD_set, hgrow]
      split_ifs with h2
      · exact Or.inr rfl
      · exact Or.inl rfl
    · exact Or.inl rfl

theorem ref_wf_with_spec {ref : SubplotRef} {s : Option CellSpec}
    (h : ref_wf ref) : ref_wf { ref with spec := s } := h

theorem keys_present_with_spec {lay : Layout} {ref : SubplotRef}
    {s : Option CellSpec} (h : keys_present lay ref) :
    keys_present lay { ref with spec := s } := h

theorem process_cell_shape {p : Prepared} {grid : List (List (ℚ × ℚ))}
    {r c : Nat} {spec : CellSpec} {st st2 : BuildState}
    (h : process_cell p grid r c spec st = .ok st2) :
    ∃ xd yd ref0 m2,
      init_subplot st.layout spec.type xd yd st.max_ids
        = .ok (st2.layout, ref0, m2)
      ∧ st2.grid_ref = set2d st.grid_ref r c (some { ref0 with spec := some spec }) := by
  unfold process_cell at h
  split_ifs at h
  all_goals
    obtain ⟨g_rc, h1, h⟩ := ebind_ok h
    obtain ⟨g_rcs, h2, h⟩ := ebind_ok h
    obtain ⟨w_cs, h3, h⟩ := ebind_ok h
    obtain ⟨yd, h4, h⟩ := ebind_ok h
    obtain ⟨t, h5, h⟩ := ebind_ok h
    injection h with h'
    subst h'
    exact ⟨_, _, t.2.1, t.2.2, h5, rfl⟩

theorem process_cells_grid_wf {p : Prepared} {grid : List (List (ℚ × ℚ))} :
    ∀ (cells : List (Nat × Nat × Option CellSpec)) (st st2 : BuildState),
      process_cells p grid cells st = .ok st2 →
      grid_wf st.layout st.grid_ref →
      grid_wf st2.layout st2.grid_ref ∧ layKeysMono st.layout st2.layout := by
  intro cells
  induction cells with
  | nil =>
    intro st st2 h hw
    rw [process_cells] at h
    cases h
    exact ⟨hw, fun k hk => hk⟩
  | cons hd rest ih =>
    obtain ⟨r, c, sp⟩ := hd
    intro st st2 h hw
    cases sp with
    | none =>
      rw [process_cells] at h
      exact ih _ _ h hw
    | some spec =>
      rw [process_cells] at h
      obtain ⟨st1, h1, h2⟩ := ebind_ok h
      obtain ⟨xd, yd, ref0, m2, hinit, hgr⟩ := process_cell_shape h1
      obtain ⟨hrwf, hkeys, hmono⟩ := init_subplot_props hinit
      have hw1 : grid_wf st1.layout st1.grid_ref := by
        intro r' c' ref href
        rw [hgr] at href
        rcases grid_ref_at_set2d (g := st.grid_ref) (r := r) (c := c)
            (v := some { ref0 with spec := some spec }) r' c' with heq | heq
        · rw [heq] at href
          obtain ⟨hwf0, hkp0⟩ := hw r' c' ref href
          exact ⟨hwf0, keys_present_mono hmono hkp0⟩
        · rw [heq] at href
          injection href with href'
          rw [← href']
          exact ⟨ref_wf_with_spec hrwf, keys_present_with_spec hkeys⟩
      obtain ⟨hw2, hmono2⟩ := ih _ _ h2 hw1
      exact ⟨hw2, fun k hk => hmono2 k (hmono k hk)⟩

theorem process_cells_dims {p : Prepared} {grid : List (List (ℚ × ℚ))} :
    ∀ (cells : List (Nat × Nat × Option CellSpec)) (st st2 : BuildState),
      process_cells p grid cells st = .ok st2 →
      st2.grid_ref.length = st.grid_ref.length
      ∧ ∀ C : Nat, (∀ row ∈ st.grid_ref, row.length = C) →
          ∀ row ∈ st2.grid_ref, row.length = C := by
  intro cells
  induction cells with
  | nil =>
    intro st st2 h
    rw [process_cells] at h
    cases h
    exact ⟨rfl, fun C hC => hC⟩
  | cons hd rest ih =>
    obtain ⟨r, c, sp⟩ := hd
    intro st st2 h
    cases sp with
    | none =>
      rw [process_cells] at h
      exact ih _ _ h
    | some spec =>
      rw [process_cells] at h
      obtain ⟨st1, h1, h2⟩ := ebind_ok h
      obtain ⟨xd, yd, ref0, m2, hinit, hgr⟩ := process_cell_shape h1
      obtain ⟨hl, hr⟩ := ih _ _ h2
      constructor
      · rw [hl, hgr, set2d_length]
      · intro C hC
        refine hr C ?_
        rw [hgr]
        exact set2d_rows_length hC

theorem set_axis_matches_mono (lay : Layout) (n f : String) (b : Bool) :
    layKeysMono lay (set_axis_matches lay n f b) := by
  intro k hk
  unfold set_axis_matches
  cases hg : assocGet lay n with
  | none => exact hk
  | some e =>
    cases e with
    | axis d a mm s => exact assocSet_mono _ _ _ _ hk
    | single x y => exact hk

theorem update_axis_matches_mono {x_or_y : String} {rl : Bool}
    {st : Layout × Option String} {ref : Option SubplotRef} :
    layKeysMono st.1 (update_axis_matches x_or_y rl st ref).1 := by
  intro k hk
  cases ref with
  | none => exact hk
  | some r =>
    simp only [update_axis_matches]
    split_ifs with h
    · cases hst : st.2 with
      | none => exact hk
      | some fid =>
        simp only []
        exact set_axis_matches_mono _ _ _ _ k hk
    · exact hk

theorem shared_pass_cells_mono (x_or_y : String) (rl : Bool) (gr : GridRef)
    (cells : List (Nat × Nat)) :
    ∀ st : Layout × Option String,
      layKeysMono st.1 (shared_pass_cells x_or_y rl gr cells st).1 := by
  induction cells with
  | nil =>
    intro st k hk
    rw [shared_pass_cells]
    exact hk
  | cons hd rest ih =>
    obtain ⟨r, c⟩ := hd
    intro st k hk
    rw [shared_pass_cells]
    exact ih _ k (update_axis_matches_mono k hk)

theorem shared_columns_mode_mono (x_or_y : String) (rl : Bool) (gr : GridRef)
    (rows_iter : List Nat) (cs : List Nat) :
    ∀ lay : Layout,
      layKeysMono lay (shared_columns_mode x_or_y rl gr rows_iter cs lay) := by
  induction cs with
  | nil =>
    intro lay k hk
    rw [shared_columns_mode]
    exact hk
  | cons c rest ih =>
    intro lay k hk
    rw [shared_columns_mode]
    exact ih _ k (shared_pass_cells_mono _ _ _ _ _ k hk)

theorem shared_rows_mode_mono (x_or_y : String) (rl : Bool) (gr : GridRef)
    (C : Nat) (rs : List Nat) :
    ∀ lay : Layout,
      layKeysMono lay (shared_rows_mode x_or_y rl gr C rs lay) := by
  induction rs with
  | nil =>
    intro lay k hk
    rw [shared_rows_mode]
    exact hk
  | cons r rest ih =>
    intro lay k hk
    rw [shared_rows_mode]
    exact ih _ k (shared_pass_cells_mono _ _ _ _ _ k hk)

theorem shared_all_mode_mono (x_or_y : String) (row_dir : Int) (R : Nat)
    (gr : GridRef) (cells : List (Nat × Nat × Nat)) :
    ∀ st : Layout × Option String,
      layKeysMono st.1 (shared_all_mode x_or_y row_dir R gr cells st).1 := by
  induction cells with
  | nil =>
    intro st k hk
    rw [shared_all_mode]
    exact hk
  | cons hd rest ih =>
    obtain ⟨c, ri, r⟩ := hd
    intro st k hk
    rw [shared_all_mode]
    exact ih _ k (update_axis_matches_mono k hk)

theorem configure_shared_axes_mono (lay : Layout) (gr : GridRef)
    (x_or_y : String) (shared : SharedVal) (row_dir : Int) :
    layKeysMono lay (configure_shared_axes lay gr x_or_y shared row_dir) := by
  unfold configure_shared_axes
  split_ifs <;>
    first
    | exact shared_columns_mode_mono _ _ _ _ _ _
    | exact shared_rows_mode_mono _ _ _ _ _ _
    | exact shared_all_mode_mono _ _ _ _ _ (lay, none)
    | exact fun k hk => hk

theorem process_insets_mono {p : Prepared} {grid : List (List (ℚ × ℚ))} :
    ∀ (insets : List InsetSpec) (lay : Layout) (m : MaxIds)
      (lay2 : Layout) (m2 : MaxIds),
      process_insets p grid insets lay m = .ok (lay2, m2) →
      layKeysMono lay lay2 := by
  intro insets
  induction insets with
  | nil =>
    intro lay m lay2 m2 h
    rw [process_insets] at h
    cases h
    exact fun k hk => hk
  | cons hd rest ih =>
    intro lay m lay2 m2 h
    rw [process_insets] at h
    split_ifs at h
    obtain ⟨g_rc, h1, h⟩ := ebind_ok h
    obtain ⟨w_c, h2, h⟩ := ebind_ok h
    obtain ⟨h_r, h3, h⟩ := ebind_ok h
    obtain ⟨t, h4, h⟩ := ebind_ok h
    have hm1 := (init_subplot_props h4).2.2
    have hm2 := ih _ _ _ _ h
    exact fun k hk => hm2 k (hm1 k hk)

theorem make_subplots_wf {a : MakeSubplotsArgs} {fig : Figure}
    (h : make_subplots a = .ok fig) :
    1 ≤ fig.grid_ref.length
    ∧ (∀ row ∈ fig.grid_ref, row.length = (fig.grid_ref.headD []).length)
    ∧ grid_wf fig.layout fig.grid_ref := by
  unfold make_subplots at h
  obtain ⟨p, hp, hb⟩ := ebind_ok h
  obtain ⟨hd1, hd2, hd3, hd4, hd5, hd6⟩ := validate_dims hp
  unfold build_figure at hb
  obtain ⟨st, hst, hb⟩ := ebind_ok hb
  obtain ⟨lm, hlm, hb⟩ := ebind_ok hb
  injection hb with hb'
  subst hb'
  obtain ⟨hlen, hrows⟩ := process_cells_dims _ _ _ hst
  have hlen0 : (init_build_state p).grid_ref.length = p.R := by
    simp [init_build_state]
  have hrows0 : ∀ row ∈ (init_build_state p).grid_ref, row.length = p.C := by
    intro row hrow
    simp only [init_build_state] at hrow
    rw [List.eq_of_mem_replicate hrow]
    simp
  have hstlen : st.grid_ref.length = p.R := by rw [hlen, hlen0]
  have hstrows : ∀ row ∈ st.grid_ref, row.length = p.C := hrows p.C hrows0
  have hne : 1 ≤ st.grid_ref.length := by omega
  have hheadlen : (st.grid_ref.headD []).length = p.C := by
    cases hcase : st.grid_ref with
    | nil =>
      rw [hcase] at hne
      simp at hne
    | cons a t =>
      refine hstrows a ?_
      rw [hcase]
      exact List.mem_cons_self _ _
  have hw0 : grid_wf (init_build_state p).layout (init_build_state p).grid_ref := by
    intro r c ref href
    have : grid_ref_at (init_build_state p).grid_ref r c = none := by
      unfold grid_ref_at init_build_state
      simp only [List.getD_eq_getElem?_getD, List.getElem?_replicate]
      split_ifs with h1
      · rw [Option.getD_some, List.getElem?_replicate]
        split_ifs <;> rfl
      · rfl
    rw [this] at href
    exact Option.noConfusion href
  obtain ⟨hwst, hmono1⟩ := process_cells_grid_wf _ _ _ hst hw0
  have hm2 : layKeysMono st.layout (shared_axes_layouts p st) := by
    intro k hk
    unfold shared_axes_layouts
    exact configure_shared_axes_mono _ _ _ _ _ k
      (configure_shared_axes_mono _ _ _ _ _ k hk)
  have hm3 := process_insets_mono _ _ _ _ _ hlm
  refine ⟨by rw [hstlen] at hne ⊢; exact hne, ?_, ?_⟩
  · intro row hrow
    rw [hheadlen]
    exact hstrows row hrow
  · intro r c ref href
    obtain ⟨hwf0, hkp0⟩ := hwst r c ref href
    exact ⟨hwf0, keys_present_mono hm3 (keys_present_mono hm2 hkp0)⟩

theorem ebind_ok_eq {α β : Type} (a : α) (f : α → Except String β) :
    ebind (.ok a) f = f a := rfl

/-- C8: round-trip between construction and lookup.  For every figure built
by make_subplots and every 1-based (row, col): an out-of-range index makes
get_grid_subplot fail; an in-range empty cell yields ok none; and an
in-range populated cell yields a handle shaped by the arity of the cell's
layout_keys (0 keys: a domain descriptor equal to the trace_kwargs domain;
1 key: the single registered layout object; 2 keys: the xaxis/yaxis pair of
registered layout objects), with identifiers matching exactly the keys
stored in that cell's trace_kwargs. -/
theorem claim_C8 {a : MakeSubplotsArgs} {fig : Figure} (row col : Int)
    (h : make_subplots a = .ok fig) :
    (¬ (1 ≤ row ∧ row ≤ (fig.grid_ref.length : Int)
        ∧ 1 ≤ col ∧ col ≤ ((fig.grid_ref.headD []).length : Int)) →
      ∃ e, get_grid_subplot fig row col = .error e)
    ∧ (1 ≤ row → row ≤ (fig.grid_ref.length : Int) →
       1 ≤ col → col ≤ ((fig.grid_ref.headD []).length : Int) →
      (grid_ref_at fig.grid_ref (row - 1).toNat (col - 1).toNat = none →
        get_grid_subplot fig row col = .ok none)
      ∧ ∀ ref, grid_ref_at fig.grid_ref (row - 1).toNat (col - 1).toNat = some ref →
          handle_matches fig.layout ref (get_grid_subplot fig row col)) := by
  obtain ⟨hlen, hrect, hwf⟩ := make_subplots_wf h
  have hhead : pyGet fig.grid_ref 0 = .ok (fig.grid_ref.headD []) := by
    cases hcase : fig.grid_ref with
    | nil =>
      rw [hcase] at hlen
      simp at hlen
    | cons r0 t => exact pyGet_of_get?_some (by omega) rfl
  have hexpand : get_grid_subplot fig row col =
      (if row < 1 ∨ (fig.grid_ref.length : Int) < row then
        .error "The row argument to get_subplot must be an integer where 1 <= row <= rows"
      else if col < 1 ∨ ((fig.grid_ref.headD []).length : Int) < col then
        .error "The col argument to get_subplot must be an integer where 1 <= col <= cols"
      else
        ebind (pyGet fig.grid_ref (row - 1)) fun refRow =>
        ebind (pyGet refRow (col - 1)) fun ref? =>
        match ref? with
        | none => .ok none
        | some ref =>
          match ref.layout_keys with
          | [] =>
            match assocGet ref.trace_kwargs "domain" with
            | some (.dom x y) => .ok (some (.dom x y))
            | _ => .error "KeyError"
          | [k] =>
            ebind (layout_get fig.layout k) fun e =>
            .ok (some (.single e))
          | [k1, k2] =>
            ebind (layout_get fig.layout k1) fun e1 =>
            ebind (layout_get fig.layout k2) fun e2 =>
            .ok (some (.xy e1 e2))
          | _ => .error "Unexpected subplot type with layout_keys") := by
    unfold get_grid_subplot
    rw [hhead]
    rfl
  refine ⟨?_, ?_⟩
  · intro hnr
    rw [hexpand]
    by_cases h1 : row < 1 ∨ (fig.grid_ref.length : Int) < row
    · exact ⟨_, by rw [if_pos h1]⟩
    · have h2 : col < 1 ∨ ((fig.grid_ref.headD []).length : Int) < col := by omega
      exact ⟨_, by rw [if_neg h1, if_pos h2]⟩
  · intro hr1 hr2 hc1 hc2
    have hrlt : (row - 1).toNat < fig.grid_ref.length := by omega
    obtain ⟨rw0, hrw⟩ : ∃ rw0, fig.grid_ref.get? (row - 1).toNat = some rw0 :=
      ⟨_, List.get?_eq_get hrlt⟩
    have hrowlen : rw0.length = (fig.grid_ref.headD []).length :=
      hrect rw0 (List.get?_mem hrw)
    have hclt : (col - 1).toNat < rw0.length := by omega
    obtain ⟨rv, hcol⟩ : ∃ x, rw0.get? (col - 1).toNat = some x :=
      ⟨_, List.get?_eq_get hclt⟩
    have hget1 : pyGet fig.grid_ref (row - 1) = .ok rw0 :=
      pyGet_of_get?_some (by omega) hrw
    have hget2 : pyGet rw0 (col - 1) = .ok rv :=
      pyGet_of_get?_some (by omega) hcol
    have hat : grid_ref_at fig.grid_ref (row - 1).toNat (col - 1).toNat = rv := by
      unfold grid_ref_at
      rw [getD_of_get? hrw, getD_of_get? hcol]
    have hif1 : ¬ (row < 1 ∨ (fig.grid_ref.length : Int) < row) := by omega
    have hif2 : ¬ (col < 1 ∨ ((fig.grid_ref.headD []).length : Int) < col) := by omega
    refine ⟨?_, ?_⟩
    · intro hnone
      rw [hat] at hnone
      subst hnone
      rw [hexpand, if_neg hif1, if_neg hif2]
      simp only [hget1, hget2, ebind_ok_eq]
    · intro ref href
      rw [hat] at href
      subst href
      have hres2 : get_grid_subplot fig row col =
          (match ref.layout_keys with
          | [] =>
            match assocGet ref.trace_kwargs "domain" with
            | some (.dom x y) => .ok (some (.dom x y))
            | _ => .error "KeyError"
          | [k] =>
            ebind (layout_get fig.layout k) fun e =>
            .ok (some (.single e))
          | [k1, k2] =>
            ebind (layout_get fig.layout k1) fun e1 =>
            ebind (layout_get fig.layout k2) fun e2 =>
            .ok (some (.xy e1 e2))
          | _ => .error "Unexpected subplot type with layout_keys") := by
        rw [hexpand, if_neg hif1, if_neg hif2]
        simp only [hget1, hget2, ebind_ok_eq]
      obtain ⟨hrwf, hkp⟩ := hwf _ _ ref hat
      rcases hrwf with ⟨hlk, x, y, htk⟩ | ⟨k, tk, hlk, htk⟩ | ⟨n, m, hlk, htk⟩
      · refine ⟨fun _ => ⟨x, y, htk, ?_⟩,
          fun k hk => by rw [hlk] at hk; exact List.noConfusion hk,
          fun k1 k2 hk => by rw [hlk] at hk; exact List.noConfusion hk⟩
        rw [hres2, hlk, htk]
        rfl
      · have hks : (assocGet fig.layout k).isSome = true :=
          hkp k (by rw [hlk]; exact List.mem_singleton.2 rfl)
        obtain ⟨e, he⟩ := Option.isSome_iff_exists.mp hks
        have hlg : layout_get fig.layout k = .ok e := by
          unfold layout_get
          rw [he]
        refine ⟨fun hk => by rw [hlk] at hk; exact List.noConfusion hk,
          ?_, fun k1 k2 hk => by
            rw [hlk] at hk
            injection hk with h1 h2
            exact List.noConfusion h2⟩
        intro k' hk'
        rw [hlk] at hk'
        injection hk' with h1 h2
        subst h1
        refine ⟨tk, e, htk, he, ?_⟩
        rw [hres2, hlk]
        show ebind (layout_get fig.layout k)
            (fun e => Except.ok (some (SubplotHandle.single e)))
          = Except.ok (some (SubplotHandle.single e))
        rw [hlg]
        rfl
      · have hks1 : (assocGet fig.layout ("xaxis" ++ n)).isSome = true :=
          hkp _ (by rw [hlk]; exact List.mem_cons_self _ _)
        have hks2 : (assocGet fig.layout ("yaxis" ++ m)).isSome = true :=
          hkp _ (by rw [hlk]; exact List.mem_cons_of_mem _ (List.mem_singleton.2 rfl))
        obtain ⟨e1, he1⟩ := Option.isSome_iff_exists.mp hks1
        obtain ⟨e2, he2⟩ := Option.isSome_iff_exists.mp hks2
        have hlg1 : layout_get fig.layout ("xaxis" ++ n) = .ok e1 := by
          unfold layout_get
          rw [he1]
        have hlg2 : layout_get fig.layout ("yaxis" ++ m) = .ok e2 := by
          unfold layout_get
          rw [he2]
        refine ⟨fun hk => by rw [hlk] at hk; exact List.noConfusion hk,
          fun k hk => by
            rw [hlk] at hk
            injection hk with h1 h2
            exact List.noConfusion h2,
          ?_⟩
        intro k1 k2 hk
        rw [hlk] at hk
        injection hk with h1 h2
        injection h2 with h2 h3
        subst h1
        subst h2
        refine ⟨n, m, e1, e2, rfl, rfl, htk, he1, he2, ?_⟩
        rw [hres2, hlk]
        show ebind (layout_get fig.layout ("xaxis" ++ n)) (fun e1 =>
            ebind (layout_get fig.layout ("yaxis" ++ m)) fun e2 =>
            Except.ok (some (SubplotHandle.xy e1 e2)))
          = Except.ok (some (SubplotHandle.xy e1 e2))
        rw [hlg1]
        show ebind (layout_get fig.layout ("yaxis" ++ m)) (fun e2 =>
            Except.ok (some (SubplotHandle.xy e1 e2)))
          = Except.ok (some (SubplotHandle.xy e1 e2))
        rw [hlg2]
        rfl

/-- Witness for C8 at the default 1 x 1 grid: looking up the out-of-range
cell (2, 1) fails, and looking up cell (1, 1) yields the handle dictated by
the stored reference record. -/
theorem claim_C8_witness :
    (∃ e, get_grid_subplot c8_fig 2 1 = .error e)
    ∧ handle_matches c8_fig.layout c8_ref (get_grid_subplot c8_fig 1 1) := by
  have h : make_subplots c8_args = .ok c8_fig := by with_unfolding_all decide
  refine ⟨(claim_C8 2 1 h).1 (by with_unfolding_all decide), ?_⟩
  exact ((claim_C8 1 1 h).2 (by with_unfolding_all decide)
    (by with_unfolding_all decide) (by with_unfolding_all decide)
    (by with_unfolding_all decide)).2 c8_ref (by with_unfolding_all decide)

end Plotly
